import Mathlib

/-!
Verification of the readme-evaluator backend against its specification.

The development shallowly embeds the parts of the code base the claims
concern:

* `backend/evaluate/progress.py` — the substep-counting `ProgressTracker`
  (stages, statuses, percentage arithmetic, the five lifecycle calls).
* `backend/pipeline.py` — the `PipelineRunner` job lifecycle (duplicate
  suppression, semaphore accounting, step records, snapshot writes,
  terminal statuses).
* `backend/evaluate/extractor.py` — `extract_json_from_readme` (success
  flag semantics and the metadata post-processing of parsed model output).

Machine reals (wall-clock timestamps, elapsed seconds) and the floating
point interpolation inside `update_stream_progress` are not modelled
bit-for-bit: timestamps are irrelevant to every property below, and the
float interpolation result is passed to the integer clamp on line 315 of
progress.py as an explicit integer argument (`raw`), with the linear
branch additionally reproduced exactly over `Rat` for concrete runs where
the float computation is exact.
-/

namespace ReadmeEval

/-- Stages of the evaluation process (progress.py, `ProgressStage`). -/
inductive ProgressStage where
  | downloading
  | building_prompt
  | calling_model
  | parsing_json
  | validating
  | rendering
  | completed
deriving DecidableEq, Repr

/-- Status of a stage (progress.py, `ProgressStatus`). -/
inductive ProgressStatus where
  | not_started
  | in_progress
  | completed
  | error
deriving DecidableEq, Repr

/-- Single progress update (progress.py, `ProgressUpdate`); the message,
timing and details fields are dropped — no claim mentions them. -/
structure ProgressUpdate where
  stage : ProgressStage
  status : ProgressStatus
  percentage : Nat
deriving DecidableEq, Repr

/-- Default substep declarations (progress.py, `DEFAULT_SUBSTEPS`); the
insertion order of the Python dict is the list order. -/
def DEFAULT_SUBSTEPS : List (ProgressStage × Nat) :=
  [(ProgressStage.downloading, 3),
   (ProgressStage.building_prompt, 2),
   (ProgressStage.calling_model, 2),
   (ProgressStage.parsing_json, 2),
   (ProgressStage.validating, 2),
   (ProgressStage.rendering, 2),
   (ProgressStage.completed, 1)]

/-- State of a `ProgressTracker` (progress.py, `__init__`): the declared
substeps with their dict order, the completed counter, the current stage
and the emitted history (chronological order, appended at the end). -/
structure ProgressTracker where
  substeps : List (ProgressStage × Nat)
  completed : Nat
  currentStage : Option ProgressStage
  history : List ProgressUpdate
deriving Repr

/-- Fresh tracker (progress.py `__init__`: counter 0, no current stage,
empty history). -/
def mkTracker (subs : List (ProgressStage × Nat)) : ProgressTracker :=
  { substeps := subs, completed := 0, currentStage := none, history := [] }

/-- Total declared substeps (progress.py `self._total`). -/
def ProgressTracker.total (t : ProgressTracker) : Nat :=
  (t.substeps.map Prod.snd).sum

/-- Percentage formula `int(completed / total * 100)` guarded by
`if total <= 0: return 100` (progress.py `_base_percentage`).  All values
are nonnegative, so Python truncation equals Nat floor division. -/
def pctOf (total c : Nat) : Nat :=
  if total = 0 then 100 else c * 100 / total

/-- Base percentage of a tracker state (progress.py `_base_percentage`). -/
def ProgressTracker.basePercentage (t : ProgressTracker) : Nat :=
  pctOf t.total t.completed

/-- Cumulative substep count through the first occurrence of a stage in
the declaration list: `sum(substeps[ordered[i]] for i in range(idx+1))`
with `idx = ordered.index(stage)` (progress.py `_stage_end_boundary`,
found case); `none` when the stage is not declared. -/
def cumulThrough (subs : List (ProgressStage × Nat)) (s : ProgressStage) :
    Option Nat :=
  match subs with
  | [] => none
  | p :: rest =>
      if p.1 = s then some p.2 else (cumulThrough rest s).map (p.2 + ·)

/-- Stage end boundary (progress.py `_stage_end_boundary`): the cumulative
count through the stage, or `completed + 1` for an undeclared stage. -/
def ProgressTracker.stageEndBoundary (t : ProgressTracker)
    (s : ProgressStage) : Nat :=
  (cumulThrough t.substeps s).getD (t.completed + 1)

/-- Window for streaming interpolation (progress.py `_step_bounds`):
`(0, 0)` without a current stage or with no declared substeps, otherwise
the pair of the counter percentage and the boundary percentage. -/
def ProgressTracker.stepBounds (t : ProgressTracker) : Nat × Nat :=
  match t.currentStage with
  | none => (0, 0)
  | some s =>
      if t.total = 0 then (0, 0)
      else (t.completed * 100 / t.total,
            t.stageEndBoundary s * 100 / t.total)

/-- Mark the beginning of a stage (progress.py `start_stage`): set the
current stage, advance the counter by one capped at the total, emit an
in-progress update at the new base percentage. -/
def ProgressTracker.start_stage (t : ProgressTracker) (s : ProgressStage) :
    ProgressTracker :=
  let c := min (t.completed + 1) t.total
  { t with
    currentStage := some s
    completed := c
    history := t.history ++
      [{ stage := s, status := ProgressStatus.in_progress,
         percentage := pctOf t.total c }] }

/-- Intermediate update inside the current stage (progress.py
`update_stage`): advance the counter by one capped at the total, emit an
in-progress update; the current stage is not touched. -/
def ProgressTracker.update_stage (t : ProgressTracker) (s : ProgressStage) :
    ProgressTracker :=
  let c := min (t.completed + 1) t.total
  { t with
    completed := c
    history := t.history ++
      [{ stage := s, status := ProgressStatus.in_progress,
         percentage := pctOf t.total c }] }

/-- Mark a stage completed (progress.py `complete_stage`): advance by one,
snap to at least the stage boundary, cap at the total, emit a completed
update. -/
def ProgressTracker.complete_stage (t : ProgressTracker)
    (s : ProgressStage) : ProgressTracker :=
  let b := t.stageEndBoundary s
  let c := min (max (t.completed + 1) b) t.total
  { t with
    completed := c
    history := t.history ++
      [{ stage := s, status := ProgressStatus.completed,
         percentage := pctOf t.total c }] }

/-- Mark a stage errored (progress.py `error_stage`): advance the counter
by one capped at the total, emit an error update. -/
def ProgressTracker.error_stage (t : ProgressTracker) (s : ProgressStage) :
    ProgressTracker :=
  let c := min (t.completed + 1) t.total
  { t with
    completed := c
    history := t.history ++
      [{ stage := s, status := ProgressStatus.error,
         percentage := pctOf t.total c }] }

/-- Exact value of the pre-clamp interpolation on the linear branch of
`update_stream_progress` (progress.py lines 303-305):
`int(start_pct + span * min(chars / est, 1.0))`.  Over `Rat` this matches
the Python float computation whenever that computation is exact (e.g.
`chars = est`, where the ratio is exactly 1.0). -/
def streamRawPctLinear (startPct endPct chars est : Nat) : Int :=
  let ratio : Rat := min ((chars : Rat) / (est : Rat)) 1
  ((startPct : Rat) + ((endPct : Rat) - (startPct : Rat)) * ratio).floor

/-- Streaming sub-progress (progress.py `update_stream_progress`): the
counter and current stage are untouched; the emitted percentage is the
clamp `max(start_pct, min(pct, end_pct))` of line 315 applied to the
branch-computed interpolation value, passed here as `raw` (for the
zero-chars branch `raw = start_pct`; for the linear branch
`raw = streamRawPctLinear`; the logarithmic branch is likewise some
integer).  The update is emitted with stage CALLING_MODEL / in-progress
(progress.py lines 317-320). -/
def ProgressTracker.update_stream_progress (t : ProgressTracker)
    (raw : Int) : ProgressTracker :=
  let sp := t.stepBounds.1
  let ep := t.stepBounds.2
  let pct : Nat := (max (sp : Int) (min raw (ep : Int))).toNat
  { t with
    history := t.history ++
      [{ stage := ProgressStage.calling_model,
         status := ProgressStatus.in_progress, percentage := pct }] }

/-- One public call on a tracker, as data. -/
inductive PEvent where
  | start (s : ProgressStage)
  | update (s : ProgressStage)
  | complete (s : ProgressStage)
  | error (s : ProgressStage)
  | stream (raw : Int)
deriving DecidableEq, Repr

/-- Apply one public call. -/
def ProgressTracker.step (t : ProgressTracker) : PEvent → ProgressTracker
  | PEvent.start s => t.start_stage s
  | PEvent.update s => t.update_stage s
  | PEvent.complete s => t.complete_stage s
  | PEvent.error s => t.error_stage s
  | PEvent.stream r => t.update_stream_progress r

/-- Apply a sequence of public calls, left to right. -/
def ProgressTracker.runEvents (t : ProgressTracker) :
    List PEvent → ProgressTracker
  | [] => t
  | e :: es => (t.step e).runEvents es

/-- The emitted percentages in chronological order. -/
def percentages (t : ProgressTracker) : List Nat :=
  t.history.map ProgressUpdate.percentage

/-- True when the event list contains no `update_stream_progress` call. -/
def noStream (evs : List PEvent) : Bool :=
  evs.all (fun e => match e with | PEvent.stream _ => false | _ => true)

/-! ### Helper lemmas about the tracker state machine -/

theorem pctOf_mono {T c d : Nat} (h : c ≤ d) : pctOf T c ≤ pctOf T d := by
  unfold pctOf
  split
  · exact le_refl _
  · exact Nat.div_le_div_right (Nat.mul_le_mul_right _ h)

theorem pctOf_total (T : Nat) : pctOf T T = 100 := by
  unfold pctOf
  split
  · rfl
  · rename_i h
    rw [Nat.mul_comm]
    exact Nat.mul_div_cancel _ (Nat.pos_of_ne_zero h)

theorem substeps_step (t : ProgressTracker) (e : PEvent) :
    (t.step e).substeps = t.substeps := by
  cases e <;> rfl

theorem substeps_runEvents (t : ProgressTracker) (evs : List PEvent) :
    (t.runEvents evs).substeps = t.substeps := by
  induction evs generalizing t with
  | nil => rfl
  | cons e es ih =>
      rw [ProgressTracker.runEvents, ih, substeps_step]

theorem history_step (t : ProgressTracker) (e : PEvent) :
    ∃ u, (t.step e).history = t.history ++ [u] := by
  cases e <;> exact ⟨_, rfl⟩

theorem mem_history_runEvents {u : ProgressUpdate} (t : ProgressTracker)
    (evs : List PEvent) (h : u ∈ t.history) :
    u ∈ (t.runEvents evs).history := by
  induction evs generalizing t with
  | nil => exact h
  | cons e es ih =>
      rw [ProgressTracker.runEvents]
      apply ih
      obtain ⟨v, hv⟩ := history_step t e
      rw [hv]
      exact List.mem_append_left _ h

theorem runEvents_append (t : ProgressTracker) (l₁ l₂ : List PEvent) :
    t.runEvents (l₁ ++ l₂) = (t.runEvents l₁).runEvents l₂ := by
  induction l₁ generalizing t with
  | nil => rfl
  | cons e es ih =>
      rw [List.cons_append, ProgressTracker.runEvents,
        ProgressTracker.runEvents, ih]

/-- Invariant carried through no-stream runs: the counter is within range,
emitted percentages form a nondecreasing chain, and the last emitted
percentage is at most the current base percentage. -/
def Inv (t : ProgressTracker) : Prop :=
  t.completed ≤ t.total ∧
  List.Chain' (fun a b => a ≤ b) (percentages t) ∧
  ∀ u ∈ t.history.getLast?, u.percentage ≤ t.basePercentage

theorem inv_extend (t : ProgressTracker) (newc : Nat)
    (cur : Option ProgressStage) (st : ProgressStage) (ss : ProgressStatus)
    (hinv : Inv t) (hc : t.completed ≤ newc) (hle : newc ≤ t.total) :
    Inv { substeps := t.substeps, completed := newc, currentStage := cur,
          history := t.history ++
            [{ stage := st, status := ss,
               percentage := pctOf t.total newc }] } := by
  obtain ⟨h1, h2, h3⟩ := hinv
  refine ⟨hle, ?_, ?_⟩
  · show List.Chain' _ (percentages _)
    unfold percentages
    simp only [List.map_append, List.map_cons, List.map_nil]
    rw [List.chain'_append]
    refine ⟨h2, List.chain'_singleton _, ?_⟩
    intro x hx y hy
    simp only [List.head?_cons, Option.mem_def, Option.some.injEq] at hy
    subst hy
    rw [List.getLast?_map] at hx
    simp only [Option.mem_map] at hx
    obtain ⟨u, hu, hux⟩ := hx
    subst hux
    exact le_trans (h3 u hu) (pctOf_mono hc)
  · intro u hu
    simp only [List.getLast?_append, List.getLast?_singleton, Option.or_some,
      Option.mem_def, Option.some.injEq] at hu
    subst hu
    exact le_refl _

theorem inv_step (t : ProgressTracker) (e : PEvent)
    (hns : (match e with | PEvent.stream _ => false | _ => true) = true)
    (hinv : Inv t) : Inv (t.step e) := by
  have h1 : t.completed ≤ t.total := hinv.1
  cases e with
  | start s =>
      exact inv_extend t _ _ s ProgressStatus.in_progress hinv
        (Nat.le_min.mpr ⟨Nat.le_succ _, h1⟩) (Nat.min_le_right _ _)
  | update s =>
      exact inv_extend t _ _ s ProgressStatus.in_progress hinv
        (Nat.le_min.mpr ⟨Nat.le_succ _, h1⟩) (Nat.min_le_right _ _)
  | complete s =>
      exact inv_extend t _ _ s ProgressStatus.completed hinv
        (Nat.le_min.mpr
          ⟨le_trans (Nat.le_succ _) (Nat.le_max_left _ _), h1⟩)
        (Nat.min_le_right _ _)
  | error s =>
      exact inv_extend t _ _ s ProgressStatus.error hinv
        (Nat.le_min.mpr ⟨Nat.le_succ _, h1⟩) (Nat.min_le_right _ _)
  | stream r => simp at hns

theorem inv_runEvents (t : ProgressTracker) (evs : List PEvent)
    (hns : noStream evs = true) (hinv : Inv t) : Inv (t.runEvents evs) := by
  induction evs generalizing t with
  | nil => exact hinv
  | cons e es ih =>
      rw [noStream, List.all_cons, Bool.and_eq_true] at hns
      exact ih (t.step e) hns.2 (inv_step t e hns.1 hinv)

theorem inv_mkTracker (subs : List (ProgressStage × Nat)) :
    Inv (mkTracker subs) := by
  refine ⟨Nat.zero_le _, List.chain'_nil, ?_⟩
  intro u hu
  simp [mkTracker] at hu

theorem cumulThrough_le_sum (subs : List (ProgressStage × Nat))
    (s : ProgressStage) {v : Nat} (h : cumulThrough subs s = some v) :
    v ≤ (subs.map Prod.snd).sum := by
  induction subs generalizing v with
  | nil => simp [cumulThrough] at h
  | cons p rest ih =>
      rw [cumulThrough] at h
      by_cases hp : p.1 = s
      · simp only [hp, if_pos rfl] at h
        cases h
        simp
      · rw [if_neg hp, Option.map_eq_some'] at h
        obtain ⟨w, hw, rfl⟩ := h
        simp only [List.map_cons, List.sum_cons]
        exact Nat.add_le_add_left (ih hw) _

theorem cumulThrough_isSome_of_mem (subs : List (ProgressStage × Nat))
    (s : ProgressStage) (h : s ∈ subs.map Prod.fst) :
    ∃ v, cumulThrough subs s = some v := by
  induction subs with
  | nil => simp at h
  | cons p rest ih =>
      rw [cumulThrough]
      by_cases hp : p.1 = s
      · exact ⟨p.2, by rw [if_pos hp]⟩
      · simp only [List.map_cons, List.mem_cons] at h
        rcases h with h | h
        · exact absurd h.symm hp
        · obtain ⟨v, hv⟩ := ih h
          exact ⟨p.2 + v, by rw [if_neg hp, hv]; rfl⟩

theorem cumulThrough_getLast (subs : List (ProgressStage × Nat))
    (hne : subs ≠ []) (hnd : (subs.map Prod.fst).Nodup) :
    cumulThrough subs (subs.getLast hne).1 =
      some ((subs.map Prod.snd).sum) := by
  induction subs with
  | nil => exact absurd rfl hne
  | cons p rest ih =>
      by_cases hr : rest = []
      · subst hr
        simp [cumulThrough]
      · have hlast : (p :: rest).getLast hne = rest.getLast hr :=
          List.getLast_cons hr
        have hmem : (rest.getLast hr).1 ∈ rest.map Prod.fst :=
          List.mem_map_of_mem _ (List.getLast_mem hr)
        have hnp : p.1 ≠ (rest.getLast hr).1 := by
          intro hcontra
          rw [List.map_cons, List.nodup_cons] at hnd
          exact hnd.1 (hcontra ▸ hmem)
        rw [hlast, cumulThrough, if_neg hnp,
          ih hr ((List.nodup_cons.mp (List.map_cons _ _ _ ▸ hnd)).2)]
        simp

/-! ### Claim theorems about ProgressTracker -/

/-- C1 counterexample.  On the default substep table, the sequence
start(DOWNLOADING) — update_stream_progress(100, 100) —
update_stage(DOWNLOADING) emits the percentages 7, 21, 14: the stream
interpolation (which may report anywhere up to the stage end boundary,
here int(3/14*100) = 21) is followed by a counter-derived percentage
int(2/14*100) = 14, so the emitted percentage sequence is not
non-decreasing.  The stream raw value is the exact value of the linear
branch for chars = est = 100 (ratio exactly 1.0, no float rounding). -/
theorem progress_percentage_can_decrease :
    percentages (ProgressTracker.runEvents (mkTracker DEFAULT_SUBSTEPS)
      [PEvent.start ProgressStage.downloading,
       PEvent.stream (streamRawPctLinear 7 21 100 100),
       PEvent.update ProgressStage.downloading]) = [7, 21, 14] ∧
    ¬ List.Chain' (fun a b => a ≤ b)
      (percentages (ProgressTracker.runEvents (mkTracker DEFAULT_SUBSTEPS)
        [PEvent.start ProgressStage.downloading,
         PEvent.stream (streamRawPctLinear 7 21 100 100),
         PEvent.update ProgressStage.downloading])) := by
  have h : streamRawPctLinear 7 21 100 100 = 21 := by
    unfold streamRawPctLinear
    norm_num [Rat.floor_def']
  rw [h]
  have hp : percentages (ProgressTracker.runEvents (mkTracker DEFAULT_SUBSTEPS)
      [PEvent.start ProgressStage.downloading,
       PEvent.stream 21,
       PEvent.update ProgressStage.downloading]) = [7, 21, 14] := by decide
  refine ⟨hp, ?_⟩
  rw [hp]
  intro hch
  obtain ⟨-, hch2⟩ := List.chain'_cons.mp hch
  obtain ⟨hle, -⟩ := List.chain'_cons.mp hch2
  omega

/-- C1 (amended): for any declared substep table and any call sequence
that does not use `update_stream_progress`, the emitted percentages are
non-decreasing; and (for a table with distinct stages, as a Python dict
guarantees) once `complete_stage` has been called for every declared
stage, the percentage 100 has been emitted — `complete_stage` on the
final declared stage snaps the counter to the total. -/
theorem progress_monotone_and_reaches_100
    (subs : List (ProgressStage × Nat)) (evs : List PEvent) :
    (noStream evs = true →
      List.Chain' (fun a b => a ≤ b)
        (percentages (ProgressTracker.runEvents (mkTracker subs) evs))) ∧
    ((subs.map Prod.fst).Nodup → subs ≠ [] →
      (∀ p ∈ subs, PEvent.complete p.1 ∈ evs) →
      100 ∈ percentages (ProgressTracker.runEvents (mkTracker subs) evs)) := by
  constructor
  · intro hns
    exact (inv_runEvents _ _ hns (inv_mkTracker subs)).2.1
  · intro hnd hne hall
    have hmem : PEvent.complete (subs.getLast hne).1 ∈ evs :=
      hall _ (List.getLast_mem hne)
    obtain ⟨l₁, l₂, rfl⟩ := List.append_of_mem hmem
    rw [runEvents_append]
    set t1 := ProgressTracker.runEvents (mkTracker subs) l₁ with ht1
    have hsub : t1.substeps = subs := substeps_runEvents _ _
    have hb : t1.stageEndBoundary (subs.getLast hne).1 = t1.total := by
      unfold ProgressTracker.stageEndBoundary ProgressTracker.total
      rw [hsub, cumulThrough_getLast subs hne hnd]
      rfl
    have hc : (t1.complete_stage ((subs.getLast hne).1)).completed =
        t1.total := by
      show min (max (t1.completed + 1)
        (t1.stageEndBoundary ((subs.getLast hne).1))) t1.total = t1.total
      rw [hb]
      exact Nat.min_eq_right (Nat.le_max_right _ _)
    have hu : (⟨(subs.getLast hne).1, ProgressStatus.completed,
        pctOf t1.total
          ((t1.complete_stage ((subs.getLast hne).1)).completed)⟩ :
          ProgressUpdate) ∈
        (ProgressTracker.runEvents
          (t1.step (PEvent.complete (subs.getLast hne).1)) l₂).history := by
      apply mem_history_runEvents
      show _ ∈ t1.history ++ [_]
      exact List.mem_append_right _ (List.mem_singleton.mpr rfl)
    rw [ProgressTracker.runEvents]
    exact List.mem_map.mpr ⟨_, hu, by rw [hc, pctOf_total]⟩

/-- C1 witness: the amended theorem applied to the default table and the
canonical full sequence (start DOWNLOADING, complete every stage in
order), discharging every hypothesis concretely. -/
theorem progress_monotone_and_reaches_100_witness :
    (noStream
        [PEvent.start ProgressStage.downloading,
         PEvent.complete ProgressStage.downloading,
         PEvent.complete ProgressStage.building_prompt,
         PEvent.complete ProgressStage.calling_model,
         PEvent.complete ProgressStage.parsing_json,
         PEvent.complete ProgressStage.validating,
         PEvent.complete ProgressStage.rendering,
         PEvent.complete ProgressStage.completed] = true ∧
      List.Chain' (fun a b => a ≤ b)
        (percentages (ProgressTracker.runEvents (mkTracker DEFAULT_SUBSTEPS)
          [PEvent.start ProgressStage.downloading,
           PEvent.complete ProgressStage.downloading,
           PEvent.complete ProgressStage.building_prompt,
           PEvent.complete ProgressStage.calling_model,
           PEvent.complete ProgressStage.parsing_json,
           PEvent.complete ProgressStage.validating,
           PEvent.complete ProgressStage.rendering,
           PEvent.complete ProgressStage.completed]))) ∧
    100 ∈ percentages (ProgressTracker.runEvents (mkTracker DEFAULT_SUBSTEPS)
      [PEvent.start ProgressStage.downloading,
       PEvent.complete ProgressStage.downloading,
       PEvent.complete ProgressStage.building_prompt,
       PEvent.complete ProgressStage.calling_model,
       PEvent.complete ProgressStage.parsing_json,
       PEvent.complete ProgressStage.validating,
       PEvent.complete ProgressStage.rendering,
       PEvent.complete ProgressStage.completed]) :=
  ⟨⟨by decide, (progress_monotone_and_reaches_100 DEFAULT_SUBSTEPS _).1
      (by decide)⟩,
   (progress_monotone_and_reaches_100 DEFAULT_SUBSTEPS _).2
      (by decide) (by decide) (by decide)⟩

/-- C4: for every tracker state and every stage S declared in its substep
table, `complete_stage(S)` leaves the completed-substep counter at least
the cumulative substep boundary of S, whatever the prior counter value
(i.e. regardless of how many optional intermediate events fired). -/
theorem complete_stage_counter_ge_boundary (t : ProgressTracker)
    (s : ProgressStage) (h : s ∈ t.substeps.map Prod.fst) :
    t.stageEndBoundary s ≤ (t.complete_stage s).completed := by
  obtain ⟨v, hv⟩ := cumulThrough_isSome_of_mem _ _ h
  have hvle : v ≤ t.total := cumulThrough_le_sum _ _ hv
  have hbv : t.stageEndBoundary s = v := by
    unfold ProgressTracker.stageEndBoundary
    rw [hv]
    rfl
  show t.stageEndBoundary s ≤
    min (max (t.completed + 1) (t.stageEndBoundary s)) t.total
  rw [hbv]
  exact Nat.le_min.mpr ⟨Nat.le_max_right _ _, hvle⟩

/-- C4 witness: the theorem applied to the tracker that started
DOWNLOADING and emitted one intermediate update, completing PARSING_JSON
out of order; the boundary 9 is still reached. -/
theorem complete_stage_counter_ge_boundary_witness :
    ProgressStage.parsing_json ∈
      (((mkTracker DEFAULT_SUBSTEPS).start_stage
          ProgressStage.downloading).update_stage
        ProgressStage.downloading).substeps.map Prod.fst ∧
    (((mkTracker DEFAULT_SUBSTEPS).start_stage
          ProgressStage.downloading).update_stage
        ProgressStage.downloading).stageEndBoundary
      ProgressStage.parsing_json ≤
    ((((mkTracker DEFAULT_SUBSTEPS).start_stage
          ProgressStage.downloading).update_stage
        ProgressStage.downloading).complete_stage
      ProgressStage.parsing_json).completed :=
  ⟨by decide, complete_stage_counter_ge_boundary _ _ (by decide)⟩

/-- C5 counterexample.  After start_stage(DOWNLOADING) and nine
update_stage calls the counter is 10, so `_step_bounds` returns the pair
(71, 21) — the start percentage is already past the DOWNLOADING end
boundary int(3/14*100) = 21.  A zero-chars `update_stream_progress` call
(else branch of lines 312-313 sets the pre-clamp value to start_pct = 71)
then emits 71, which exceeds the stage end boundary 21, while the claim
says the emitted percentage never exceeds it. -/
theorem update_stream_progress_can_exceed_boundary :
    (ProgressTracker.runEvents (mkTracker DEFAULT_SUBSTEPS)
        ([PEvent.start ProgressStage.downloading] ++
         List.replicate 9
           (PEvent.update ProgressStage.downloading))).stepBounds =
      (71, 21) ∧
    (percentages ((ProgressTracker.runEvents (mkTracker DEFAULT_SUBSTEPS)
        ([PEvent.start ProgressStage.downloading] ++
         List.replicate 9
           (PEvent.update
             ProgressStage.downloading))).update_stream_progress
        71)).getLast? = some 71 ∧
    ¬(71 ≤ 21) :=
  ⟨by decide, by decide, by decide⟩

/-- C5 (amended): `update_stream_progress` never mutates the
completed-substep counter (nor the substep table or current stage), and
the percentage of the emitted update is at least the window start
`stage_start_pct` and, whenever the window is nonempty
(`stage_start_pct ≤ stage_end_pct`, which holds whenever the counter has
not overrun the current stage boundary), at most `stage_end_pct`. -/
theorem update_stream_progress_frame (t : ProgressTracker) (raw : Int) :
    (t.update_stream_progress raw).completed = t.completed ∧
    (t.update_stream_progress raw).substeps = t.substeps ∧
    (t.update_stream_progress raw).currentStage = t.currentStage ∧
    ∀ u ∈ (t.update_stream_progress raw).history.getLast?,
      t.stepBounds.1 ≤ u.percentage ∧
      (t.stepBounds.1 ≤ t.stepBounds.2 →
        u.percentage ≤ t.stepBounds.2) := by
  refine ⟨rfl, rfl, rfl, ?_⟩
  intro u hu
  simp only [ProgressTracker.update_stream_progress, List.getLast?_append,
    List.getLast?_singleton, Option.or_some, Option.mem_def,
    Option.some.injEq] at hu
  subst hu
  constructor
  · have h0 : (0 : Int) ≤
        max (t.stepBounds.1 : Int) (min raw (t.stepBounds.2 : Int)) :=
      le_trans (Int.natCast_nonneg _) (le_max_left _ _)
    exact (Int.le_toNat h0).mpr (le_max_left _ _)
  · intro hle
    apply Int.toNat_le.mpr
    exact max_le (by exact_mod_cast hle) (min_le_right _ _)

/-- C5 witness: the frame theorem applied to the tracker that just
started DOWNLOADING (window (7, 21)) with raw interpolation value 10:
the counter is unchanged and the emitted percentage 10 lies in [7, 21]. -/
theorem update_stream_progress_frame_witness :
    (((mkTracker DEFAULT_SUBSTEPS).start_stage
        ProgressStage.downloading).update_stream_progress 10).completed =
      ((mkTracker DEFAULT_SUBSTEPS).start_stage
        ProgressStage.downloading).completed ∧
    ((⟨ProgressStage.calling_model, ProgressStatus.in_progress, 10⟩ :
        ProgressUpdate) ∈
      (((mkTracker DEFAULT_SUBSTEPS).start_stage
          ProgressStage.downloading).update_stream_progress
        10).history.getLast?) ∧
    ((mkTracker DEFAULT_SUBSTEPS).start_stage
        ProgressStage.downloading).stepBounds.1 ≤ 10 ∧
    (((mkTracker DEFAULT_SUBSTEPS).start_stage
          ProgressStage.downloading).stepBounds.1 ≤
        ((mkTracker DEFAULT_SUBSTEPS).start_stage
          ProgressStage.downloading).stepBounds.2 →
      10 ≤ ((mkTracker DEFAULT_SUBSTEPS).start_stage
        ProgressStage.downloading).stepBounds.2) := by
  refine ⟨(update_stream_progress_frame _ 10).1, by decide, ?_⟩
  exact (update_stream_progress_frame
    ((mkTracker DEFAULT_SUBSTEPS).start_stage ProgressStage.downloading)
    10).2.2.2
    ⟨ProgressStage.calling_model, ProgressStatus.in_progress, 10⟩
    (by decide)

/-! ### Embedding of backend/pipeline.py (PipelineRunner)

The job store models the per-job JSON files under `processing/jobs/`; a
`writeJob` both updates the store and appends to a write log (`_write`).
Wall-clock timestamps are modelled only by the boolean `finishedAt`
(whether the `finished_at` field has been set), and artifact paths are
not modelled — no claim mentions them.  Python truthiness of the string
parameters (`if not repo_url and not params.get("readme_text")`) is
`pyTruthy`: absent or empty strings are falsy. -/

/-- Status of one step record (pipeline.py `_start_step` /
`_finish_step`). -/
inductive StepStatus where
  | running
  | done
  | failed
deriving DecidableEq, Repr

/-- Terminal and transient job statuses (pipeline.py). -/
inductive JobStatus where
  | queued
  | running
  | succeeded
  | failed
deriving DecidableEq, Repr

/-- One entry of the steps list (pipeline.py `_start_step` literal, minus
timestamps). -/
structure StepRec where
  name : String
  status : StepStatus
  message : Option String
deriving DecidableEq, Repr

/-- The fields of the extractor result dict (`EvaluationResult.to_dict`)
that the pipeline reads: `parsed is not None`, `validation_ok`,
`validation_errors` (pipeline.py lines 242-252). -/
structure ResultDoc where
  parsedPresent : Bool
  validation_ok : Option Bool
  validation_errors : Option String
deriving DecidableEq, Repr

/-- Job document (pipeline.py `new_job` literal, minus id, params,
artifacts and timestamps). -/
structure Job where
  status : JobStatus
  currentStep : Option String
  steps : List StepRec
  result : Option ResultDoc
  error : Option String
  finishedAt : Bool
deriving DecidableEq, Repr

/-- Fresh job as written by `new_job` (status queued, empty steps, no
result, no error). -/
def newJob : Job :=
  { status := JobStatus.queued, currentStep := none, steps := [],
    result := none, error := none, finishedAt := false }

/-- The run parameters the pipeline reads (pipeline.py `params.get`). -/
structure Params where
  repo_url : Option String
  readme_text : Option String
  model : Option String
deriving DecidableEq, Repr

/-- Python truthiness of an optional string: `None` and `""` are falsy. -/
def pyTruthy : Option String → Bool
  | none => false
  | some s => !(s == "")

/-- External collaborators of one run (spec section on collaborator
interfaces).  `download` models `ReadmeDownloader().download` (path or
raised message); `extractPromptOnly` and `extractWithModel` model the two
`extract_json_from_readme` calls, which never raise (the extractor
catches every exception at its own top level); `geminiKey` models the
presence of GEMINI_API_KEY; `saveResults` models the file operations of
the save_results step (lines 259-274), which may raise.  The MongoDB
insert, the backup write and the cache cleanup are not modelled: every
exception they can raise is caught inside their step (lines 284-307 and
318-331) and only affects artifacts and logs. -/
structure PipeEnv where
  download : Except String String
  extractPromptOnly : ResultDoc
  extractWithModel : ResultDoc
  geminiKey : Bool
  saveResults : Except String Unit
deriving Repr

/-- Global pipeline state: the mutex-protected active-job set, the job
store (the per-job files), the chronological write log of `_write`, and
counters of semaphore acquire/release events. -/
structure PipeState where
  active : List String
  store : List (String × Job)
  writes : List Job
  semAcquires : Nat
  semReleases : Nat
deriving DecidableEq, Repr

/-- One `_write` (pipeline.py `_write`): replace the job file, creating
it when absent, and record the snapshot in the write log. -/
def writeJob (st : PipeState) (jobId : String) (j : Job) : PipeState :=
  { st with
    store :=
      if (st.store.lookup jobId).isSome then
        st.store.map (fun p => if p.1 = jobId then (jobId, j) else p)
      else st.store ++ [(jobId, j)]
    writes := st.writes ++ [j] }

/-- Begin a step (pipeline.py `_start_step`): append a running step
record, set `current_step` and `status=running`. -/
def startStep (j : Job) (name : String) : Job :=
  { j with
    steps := j.steps ++ [{ name := name, status := StepStatus.running,
                           message := none }]
    currentStep := some name
    status := JobStatus.running }

/-- Set status and message of the most recently started step
(pipeline.py `_finish_step`, step fields). -/
def finishLast (steps : List StepRec) (ok : Bool) (msg : Option String) :
    List StepRec :=
  match steps.getLast? with
  | none => steps
  | some s =>
      steps.dropLast ++
        [{ s with
           status := if ok then StepStatus.done else StepStatus.failed
           message := msg }]

/-- Finish a step (pipeline.py `_finish_step`): mark the last step
done/failed with the message; on failure also set the job status to
failed and record the error. -/
def finishStep (j : Job) (ok : Bool) (msg : Option String) : Job :=
  let j1 := { j with steps := finishLast j.steps ok msg }
  if ok then j1 else { j1 with status := JobStatus.failed, error := msg }

/-- Outer exception handler of `_run_inner` (lines 340-349): mark the job
failed with the exception message, set `finished_at`, write. -/
def failJob (st : PipeState) (jobId : String) (j : Job) (msg : String) :
    PipeState :=
  writeJob st jobId
    { j with status := JobStatus.failed, error := some msg,
             finishedAt := true }

/-- Step 7, cleanup_cache (lines 317-338): cleanup exceptions are caught
and only recorded in artifacts, so the step always finishes ok; then the
success epilogue sets `status=succeeded` with `finished_at` and writes. -/
def runFromCleanup (jobId : String) (st : PipeState) (j : Job) :
    PipeState :=
  let j1 := startStep j "cleanup_cache"
  let st1 := writeJob st jobId j1
  let j2 := finishStep j1 true none
  let st2 := writeJob st1 jobId j2
  let j3 := { j2 with status := JobStatus.succeeded, finishedAt := true }
  writeJob st2 jobId j3

/-- Step 6, save_to_database (lines 279-314): the MongoDB insert and the
file backup are each wrapped in their own handler, so the outer handler
never fires and the step always finishes ok. -/
def runFromSaveDb (jobId : String) (st : PipeState) (j : Job) :
    PipeState :=
  let j1 := startStep j "save_to_database"
  let st1 := writeJob st jobId j1
  let j2 := finishStep j1 true none
  let st2 := writeJob st1 jobId j2
  runFromCleanup jobId st2 j2

/-- Step 5, save_results (lines 256-276): the file operations may raise;
the handler finishes the step as failed with the message and returns
without setting `finished_at`. -/
def runFromSaveResults (env : PipeEnv) (jobId : String) (st : PipeState)
    (j : Job) : PipeState :=
  let j1 := startStep j "save_results"
  let st1 := writeJob st jobId j1
  match env.saveResults with
  | Except.error m =>
      let j2 := finishStep j1 false (some m)
      writeJob st1 jobId j2
  | Except.ok _ =>
      let j2 := finishStep j1 true none
      let st2 := writeJob st1 jobId j2
      runFromSaveDb jobId st2 j2

/-- Step 4, validate_schema (lines 241-253): copy `validation_ok` and
`validation_errors` from the result when it has a parsed payload,
otherwise reset both to None; always finishes ok. -/
def runFromValidate (env : PipeEnv) (jobId : String) (st : PipeState)
    (j : Job) : PipeState :=
  let j1 := startStep j "validate_schema"
  let st1 := writeJob st jobId j1
  let vo := match j1.result with
            | some r => if r.parsedPresent then r.validation_ok else none
            | none => none
  let ve := match j1.result with
            | some r => if r.parsedPresent then r.validation_errors
                        else none
            | none => none
  let j2 := { j1 with
    result := j1.result.map
      (fun r => { r with validation_ok := vo, validation_errors := ve }) }
  let j3 := finishStep j2 true none
  let st2 := writeJob st1 jobId j3
  runFromSaveResults env jobId st2 j3

/-- Step 3, call_model (lines 211-238): with a truthy model and the
GEMINI_API_KEY set, the model extraction result becomes the job result
and the step finishes ok (the result dict is a fresh object, so the
identity check on line 236 fires); otherwise the prompt-only result is
stored and the step finishes ok with the skip message. -/
def runFromCallModel (env : PipeEnv) (params : Params) (jobId : String)
    (st : PipeState) (j : Job) (promptOnly : ResultDoc) : PipeState :=
  let j1 := startStep j "call_model"
  let st1 := writeJob st jobId j1
  if pyTruthy params.model && env.geminiKey then
    let j2 := { j1 with result := some env.extractWithModel }
    let j3 := finishStep j2 true none
    let st2 := writeJob st1 jobId j3
    runFromValidate env jobId st2 j3
  else
    let j2 := { j1 with result := some promptOnly }
    let j3 := finishStep j2 true
      (some "skipped: no model or GEMINI_API_KEY")
    let st2 := writeJob st1 jobId j3
    runFromValidate env jobId st2 j3

/-- Step 2, build_prompt (lines 188-208): the prompt-only extractor call
never raises; the step finishes ok. -/
def runFromBuildPrompt (env : PipeEnv) (params : Params) (jobId : String)
    (st : PipeState) (j : Job) : PipeState :=
  let j1 := startStep j "build_prompt"
  let st1 := writeJob st jobId j1
  let promptOnly := env.extractPromptOnly
  let j2 := finishStep j1 true none
  let st2 := writeJob st1 jobId j2
  runFromCallModel env params jobId st2 j2 promptOnly

/-- Core pipeline logic (pipeline.py `_run_inner`): missing job file is a
no-op; step 1 (download_readme) starts, then the input check may raise
ValueError to the outer handler; with a truthy repo_url the downloader
may raise; the readme_text branch writes the text to a bookkeeping file
(not modelled, cannot affect control flow here); then the step finishes
ok and the remaining steps run.  `runFromDownload` is the body of
`_run_inner` once the job file has been read. -/
def runFromDownload (env : PipeEnv) (params : Params) (jobId : String)
    (st : PipeState) (job0 : Job) : PipeState :=
  let j1 := startStep job0 "download_readme"
  let st1 := writeJob st jobId j1
  if !pyTruthy params.repo_url && !pyTruthy params.readme_text then
    failJob st1 jobId j1 "Either repo_url or readme_text must be provided"
  else if pyTruthy params.repo_url then
    match env.download with
    | Except.error m => failJob st1 jobId j1 m
    | Except.ok _ =>
        let j2 := finishStep j1 true none
        let st2 := writeJob st1 jobId j2
        runFromBuildPrompt env params jobId st2 j2
  else
    let j2 := finishStep j1 true none
    let st2 := writeJob st1 jobId j2
    runFromBuildPrompt env params jobId st2 j2

/-- Entry of `_run_inner` (lines 150-156): a missing job file is a
no-op, otherwise the loaded job document flows into the step chain. -/
def runInner (env : PipeEnv) (params : Params) (jobId : String)
    (st : PipeState) : PipeState :=
  match st.store.lookup jobId with
  | none => st
  | some job0 => runFromDownload env params jobId st job0

/-- Job runner entry point (pipeline.py `run`): under the active-jobs
lock, a duplicate id returns immediately with nothing mutated; otherwise
the id is added, a semaphore permit is acquired, `_run_inner` executes,
and the finally block releases the permit and discards the id. -/
def run (env : PipeEnv) (params : Params) (jobId : String)
    (st : PipeState) : PipeState :=
  if jobId ∈ st.active then st
  else
    let st1 := { st with active := jobId :: st.active,
                         semAcquires := st.semAcquires + 1 }
    let st2 := runInner env params jobId st1
    { st2 with active := st2.active.erase jobId,
               semReleases := st2.semReleases + 1 }

/-- Snapshot of currently running job ids (pipeline.py
`get_active_jobs`). -/
def get_active_jobs (st : PipeState) : List String := st.active

/-! ### Helper lemmas about the pipeline model -/

theorem lookup_map_replace {β : Type} (l : List (String × β))
    (jobId : String) (j : β) (h : (l.lookup jobId).isSome) :
    ((l.map fun p => if p.1 = jobId then (jobId, j) else p).lookup jobId) =
      some j := by
  induction l with
  | nil => simp [List.lookup] at h
  | cons p rest ih =>
      obtain ⟨k, v⟩ := p
      by_cases hp : k = jobId
      · subst hp
        rw [List.map_cons, if_pos (show (k, v).1 = k from rfl)]
        simp [List.lookup]
      · have hbeq : (jobId == k) = false := by
          rw [beq_eq_false_iff_ne]
          exact fun hc => hp hc.symm
        have hne : ((k, v).1 = jobId) = False := by
          simp [hp]
        rw [List.lookup, hbeq] at h
        rw [List.map_cons, if_neg (by simpa using hp), List.lookup, hbeq]
        exact ih h

theorem lookup_append_of_none {β : Type} (l₁ l₂ : List (String × β))
    (jobId : String) (h : l₁.lookup jobId = none) :
    (l₁ ++ l₂).lookup jobId = l₂.lookup jobId := by
  induction l₁ with
  | nil => rfl
  | cons p rest ih =>
      rw [List.lookup] at h
      rw [List.cons_append, List.lookup]
      cases hbeq : (jobId == p.1) with
      | true => rw [hbeq] at h; exact absurd h (by simp)
      | false => rw [hbeq] at h; exact ih h

theorem lookup_writeJob (st : PipeState) (jobId : String) (j : Job) :
    (writeJob st jobId j).store.lookup jobId = some j := by
  unfold writeJob
  by_cases h : (st.store.lookup jobId).isSome
  · simp only [if_pos h]
    exact lookup_map_replace _ _ _ h
  · simp only [if_neg h]
    rw [lookup_append_of_none]
    · simp [List.lookup]
    · exact Option.not_isSome_iff_eq_none.mp h

theorem active_writeJob (st : PipeState) (jobId : String) (j : Job) :
    (writeJob st jobId j).active = st.active := rfl

theorem active_runFromCleanup (jobId : String) (st : PipeState) (j : Job) :
    (runFromCleanup jobId st j).active = st.active := rfl

theorem active_runFromSaveDb (jobId : String) (st : PipeState) (j : Job) :
    (runFromSaveDb jobId st j).active = st.active := rfl

theorem active_runFromSaveResults (env : PipeEnv) (jobId : String)
    (st : PipeState) (j : Job) :
    (runFromSaveResults env jobId st j).active = st.active := by
  unfold runFromSaveResults
  cases env.saveResults with
  | error m => rfl
  | ok u => exact active_runFromSaveDb _ _ _

theorem active_runFromValidate (env : PipeEnv) (jobId : String)
    (st : PipeState) (j : Job) :
    (runFromValidate env jobId st j).active = st.active := by
  unfold runFromValidate
  exact active_runFromSaveResults _ _ _ _

theorem active_runFromCallModel (env : PipeEnv) (params : Params)
    (jobId : String) (st : PipeState) (j : Job) (promptOnly : ResultDoc) :
    (runFromCallModel env params jobId st j promptOnly).active =
      st.active := by
  unfold runFromCallModel
  split
  · exact active_runFromValidate _ _ _ _
  · exact active_runFromValidate _ _ _ _

theorem active_runFromBuildPrompt (env : PipeEnv) (params : Params)
    (jobId : String) (st : PipeState) (j : Job) :
    (runFromBuildPrompt env params jobId st j).active = st.active := by
  unfold runFromBuildPrompt
  exact active_runFromCallModel _ _ _ _ _ _

theorem active_runFromDownload (env : PipeEnv) (params : Params)
    (jobId : String) (st : PipeState) (job0 : Job) :
    (runFromDownload env params jobId st job0).active = st.active := by
  unfold runFromDownload
  split
  · rfl
  · split
    · split
      · rfl
      · exact active_runFromBuildPrompt _ _ _ _ _
    · exact active_runFromBuildPrompt _ _ _ _ _

theorem active_runInner (env : PipeEnv) (params : Params) (jobId : String)
    (st : PipeState) : (runInner env params jobId st).active = st.active := by
  unfold runInner
  split
  · rfl
  · exact active_runFromDownload _ _ _ _ _

theorem finishLast_concat (steps : List StepRec) (r : StepRec) (ok : Bool)
    (msg : Option String) :
    finishLast (steps ++ [r]) ok msg =
      steps ++ [{ r with
        status := if ok then StepStatus.done else StepStatus.failed
        message := msg }] := by
  unfold finishLast
  rw [List.getLast?_concat, List.dropLast_concat]

theorem doneStep_shape (j : Job) (n : String) (msg : Option String) :
    finishStep (startStep j n) true msg =
      { j with steps := j.steps ++ [⟨n, StepStatus.done, msg⟩],
               currentStep := some n, status := JobStatus.running } := by
  unfold finishStep startStep
  rw [finishLast_concat]
  rfl

theorem failStep_shape (j : Job) (n : String) (msg : Option String) :
    finishStep (startStep j n) false msg =
      { j with steps := j.steps ++ [⟨n, StepStatus.failed, msg⟩],
               currentStep := some n, status := JobStatus.failed,
               error := msg } := by
  unfold finishStep startStep
  rw [finishLast_concat]
  rfl

theorem lookup_runFromCleanup (jobId : String) (st : PipeState) (j : Job) :
    (runFromCleanup jobId st j).store.lookup jobId =
      some { j with
        steps := j.steps ++ [⟨"cleanup_cache", StepStatus.done, none⟩],
        currentStep := some "cleanup_cache",
        status := JobStatus.succeeded, finishedAt := true } := by
  simp only [runFromCleanup, doneStep_shape]
  exact lookup_writeJob _ _ _

theorem lookup_runFromSaveDb (jobId : String) (st : PipeState) (j : Job) :
    (runFromSaveDb jobId st j).store.lookup jobId =
      some { j with
        steps := j.steps ++
          [⟨"save_to_database", StepStatus.done, none⟩,
           ⟨"cleanup_cache", StepStatus.done, none⟩],
        currentStep := some "cleanup_cache",
        status := JobStatus.succeeded, finishedAt := true } := by
  simp only [runFromSaveDb, doneStep_shape, lookup_runFromCleanup]
  simp [List.append_assoc]

theorem lookup_runFromSaveResults_ok (env : PipeEnv) (jobId : String)
    (st : PipeState) (j : Job) (h : env.saveResults = Except.ok ()) :
    (runFromSaveResults env jobId st j).store.lookup jobId =
      some { j with
        steps := j.steps ++
          [⟨"save_results", StepStatus.done, none⟩,
           ⟨"save_to_database", StepStatus.done, none⟩,
           ⟨"cleanup_cache", StepStatus.done, none⟩],
        currentStep := some "cleanup_cache",
        status := JobStatus.succeeded, finishedAt := true } := by
  simp only [runFromSaveResults, h, doneStep_shape, lookup_runFromSaveDb]
  simp [List.append_assoc]

theorem lookup_runFromSaveResults_err (env : PipeEnv) (jobId : String)
    (st : PipeState) (j : Job) (m : String)
    (h : env.saveResults = Except.error m) :
    (runFromSaveResults env jobId st j).store.lookup jobId =
      some { j with
        steps := j.steps ++ [⟨"save_results", StepStatus.failed, some m⟩],
        currentStep := some "save_results",
        status := JobStatus.failed, error := some m } := by
  simp only [runFromSaveResults, h, failStep_shape]
  exact lookup_writeJob _ _ _

theorem lookup_runFromValidate_ok (env : PipeEnv) (jobId : String)
    (st : PipeState) (j : Job) (h : env.saveResults = Except.ok ()) :
    (runFromValidate env jobId st j).store.lookup jobId =
      some { j with
        steps := j.steps ++
          [⟨"validate_schema", StepStatus.done, none⟩,
           ⟨"save_results", StepStatus.done, none⟩,
           ⟨"save_to_database", StepStatus.done, none⟩,
           ⟨"cleanup_cache", StepStatus.done, none⟩],
        currentStep := some "cleanup_cache",
        status := JobStatus.succeeded, finishedAt := true,
        result := j.result.map (fun r =>
          { r with
            validation_ok :=
              if r.parsedPresent then r.validation_ok else none
            validation_errors :=
              if r.parsedPresent then r.validation_errors else none }) } := by
  cases hr : j.result with
  | none =>
      simp only [runFromValidate, startStep, hr, Option.map_none']
      simp only [finishStep, finishLast_concat]
      simp only [lookup_runFromSaveResults_ok _ _ _ _ h]
      simp [List.append_assoc]
  | some r0 =>
      simp only [runFromValidate, startStep, hr, Option.map_some']
      simp only [finishStep, finishLast_concat]
      simp only [lookup_runFromSaveResults_ok _ _ _ _ h]
      simp [List.append_assoc]

theorem lookup_runFromValidate_err (env : PipeEnv) (jobId : String)
    (st : PipeState) (j : Job) (m : String)
    (h : env.saveResults = Except.error m) :
    (runFromValidate env jobId st j).store.lookup jobId =
      some { j with
        steps := j.steps ++
          [⟨"validate_schema", StepStatus.done, none⟩,
           ⟨"save_results", StepStatus.failed, some m⟩],
        currentStep := some "save_results",
        status := JobStatus.failed, error := some m,
        result := j.result.map (fun r =>
          { r with
            validation_ok :=
              if r.parsedPresent then r.validation_ok else none
            validation_errors :=
              if r.parsedPresent then r.validation_errors else none }) } := by
  cases hr : j.result with
  | none =>
      simp only [runFromValidate, startStep, hr, Option.map_none']
      simp only [finishStep, finishLast_concat]
      simp only [lookup_runFromSaveResults_err _ _ _ _ _ h]
      simp [List.append_assoc]
  | some r0 =>
      simp only [runFromValidate, startStep, hr, Option.map_some']
      simp only [finishStep, finishLast_concat]
      simp only [lookup_runFromSaveResults_err _ _ _ _ _ h]
      simp [List.append_assoc]

theorem lookup_runFromCallModel_model_ok (env : PipeEnv) (params : Params)
    (jobId : String) (st : PipeState) (j : Job) (promptOnly : ResultDoc)
    (hc : (pyTruthy params.model && env.geminiKey) = true)
    (h : env.saveResults = Except.ok ()) :
    (runFromCallModel env params jobId st j promptOnly).store.lookup jobId =
      some { j with
        steps := j.steps ++
          [⟨"call_model", StepStatus.done, none⟩,
           ⟨"validate_schema", StepStatus.done, none⟩,
           ⟨"save_results", StepStatus.done, none⟩,
           ⟨"save_to_database", StepStatus.done, none⟩,
           ⟨"cleanup_cache", StepStatus.done, none⟩],
        currentStep := some "cleanup_cache",
        status := JobStatus.succeeded, finishedAt := true,
        result := some { env.extractWithModel with
          validation_ok :=
            if env.extractWithModel.parsedPresent then
              env.extractWithModel.validation_ok
            else none
          validation_errors :=
            if env.extractWithModel.parsedPresent then
              env.extractWithModel.validation_errors
            else none } } := by
  simp only [runFromCallModel, hc, if_true]
  simp only [startStep, finishStep, finishLast_concat]
  simp only [lookup_runFromValidate_ok _ _ _ _ h]
  simp [List.append_assoc]

theorem lookup_runFromCallModel_skip_ok (env : PipeEnv) (params : Params)
    (jobId : String) (st : PipeState) (j : Job) (promptOnly : ResultDoc)
    (hc : (pyTruthy params.model && env.geminiKey) = false)
    (h : env.saveResults = Except.ok ()) :
    (runFromCallModel env params jobId st j promptOnly).store.lookup jobId =
      some { j with
        steps := j.steps ++
          [⟨"call_model", StepStatus.done,
             some "skipped: no model or GEMINI_API_KEY"⟩,
           ⟨"validate_schema", StepStatus.done, none⟩,
           ⟨"save_results", StepStatus.done, none⟩,
           ⟨"save_to_database", StepStatus.done, none⟩,
           ⟨"cleanup_cache", StepStatus.done, none⟩],
        currentStep := some "cleanup_cache",
        status := JobStatus.succeeded, finishedAt := true,
        result := some { promptOnly with
          validation_ok :=
            if promptOnly.parsedPresent then promptOnly.validation_ok
            else none
          validation_errors :=
            if promptOnly.parsedPresent then promptOnly.validation_errors
            else none } } := by
  simp only [runFromCallModel, hc, Bool.false_eq_true, if_false]
  simp only [startStep, finishStep, finishLast_concat]
  simp only [lookup_runFromValidate_ok _ _ _ _ h]
  simp [List.append_assoc]

theorem lookup_runFromCallModel_model_err (env : PipeEnv) (params : Params)
    (jobId : String) (st : PipeState) (j : Job) (promptOnly : ResultDoc)
    (m : String)
    (hc : (pyTruthy params.model && env.geminiKey) = true)
    (h : env.saveResults = Except.error m) :
    (runFromCallModel env params jobId st j promptOnly).store.lookup jobId =
      some { j with
        steps := j.steps ++
          [⟨"call_model", StepStatus.done, none⟩,
           ⟨"validate_schema", StepStatus.done, none⟩,
           ⟨"save_results", StepStatus.failed, some m⟩],
        currentStep := some "save_results",
        status := JobStatus.failed, error := some m,
        result := some { env.extractWithModel with
          validation_ok :=
            if env.extractWithModel.parsedPresent then
              env.extractWithModel.validation_ok
            else none
          validation_errors :=
            if env.extractWithModel.parsedPresent then
              env.extractWithModel.validation_errors
            else none } } := by
  simp only [runFromCallModel, hc, if_true]
  simp only [startStep, finishStep, finishLast_concat]
  simp only [lookup_runFromValidate_err _ _ _ _ _ h]
  simp [List.append_assoc]

theorem lookup_runFromCallModel_skip_err (env : PipeEnv) (params : Params)
    (jobId : String) (st : PipeState) (j : Job) (promptOnly : ResultDoc)
    (m : String)
    (hc : (pyTruthy params.model && env.geminiKey) = false)
    (h : env.saveResults = Except.error m) :
    (runFromCallModel env params jobId st j promptOnly).store.lookup jobId =
      some { j with
        steps := j.steps ++
          [⟨"call_model", StepStatus.done,
             some "skipped: no model or GEMINI_API_KEY"⟩,
           ⟨"validate_schema", StepStatus.done, none⟩,
           ⟨"save_results", StepStatus.failed, some m⟩],
        currentStep := some "save_results",
        status := JobStatus.failed, error := some m,
        result := some { promptOnly with
          validation_ok :=
            if promptOnly.parsedPresent then promptOnly.validation_ok
            else none
          validation_errors :=
            if promptOnly.parsedPresent then promptOnly.validation_errors
            else none } } := by
  simp only [runFromCallModel, hc, Bool.false_eq_true, if_false]
  simp only [startStep, finishStep, finishLast_concat]
  simp only [lookup_runFromValidate_err _ _ _ _ _ h]
  simp [List.append_assoc]

theorem buildPrompt_reduces (env : PipeEnv) (params : Params)
    (jobId : String) (st : PipeState) (j : Job) :
    runFromBuildPrompt env params jobId st j =
      runFromCallModel env params jobId
        (writeJob (writeJob st jobId (startStep j "build_prompt")) jobId
          { j with
            steps := j.steps ++ [⟨"build_prompt", StepStatus.done, none⟩],
            currentStep := some "build_prompt",
            status := JobStatus.running })
        { j with
          steps := j.steps ++ [⟨"build_prompt", StepStatus.done, none⟩],
          currentStep := some "build_prompt",
          status := JobStatus.running }
        env.extractPromptOnly := by
  simp only [runFromBuildPrompt, doneStep_shape]

/-! ### Claim theorems about PipelineRunner -/

/-- C2: invoking `run` while the job id is already in the active set is
an immediate no-op: the job store is untouched (the polled snapshot still
matches whatever the first run wrote), nothing is appended to the write
log (hence no step records and no snapshot writes), no semaphore permit
is acquired, and in fact the whole state is unchanged. -/
theorem run_duplicate_is_noop (env : PipeEnv) (params : Params)
    (jobId : String) (st : PipeState) (h : jobId ∈ st.active) :
    (run env params jobId st).store = st.store ∧
    (run env params jobId st).writes = st.writes ∧
    (run env params jobId st).semAcquires = st.semAcquires ∧
    run env params jobId st = st := by
  have heq : run env params jobId st = st := by
    unfold run
    rw [if_pos h]
  exact ⟨by rw [heq], by rw [heq], by rw [heq], heq⟩

/-- C2 witness: a duplicate invocation on a state whose active set
already holds the id leaves the state exactly as it was. -/
theorem run_duplicate_is_noop_witness :
    ("job-1" ∈ (⟨["job-1"], [("job-1", newJob)], [], 1, 0⟩ :
        PipeState).active) ∧
    run ⟨Except.ok "p", ⟨false, none, none⟩, ⟨true, some true, none⟩,
        true, Except.ok ()⟩ ⟨none, some "# Hello", none⟩ "job-1"
      ⟨["job-1"], [("job-1", newJob)], [], 1, 0⟩ =
      ⟨["job-1"], [("job-1", newJob)], [], 1, 0⟩ :=
  ⟨by decide,
   (run_duplicate_is_noop _ _ "job-1" _ (by decide)).2.2.2⟩

/-- C3: whenever `run` actually executes (the id was not already active,
i.e. the call is not a suppressed duplicate), the id is absent from the
active-job snapshot after the call returns — for every environment,
including ones whose downloader or save step raises, because the
finally block always discards the id. -/
theorem run_cleans_active (env : PipeEnv) (params : Params)
    (jobId : String) (st : PipeState) (h : jobId ∉ st.active) :
    jobId ∉ get_active_jobs (run env params jobId st) := by
  unfold run
  rw [if_neg h]
  show jobId ∉ ((runInner env params jobId _).active.erase jobId)
  rw [active_runInner]
  show jobId ∉ (jobId :: st.active).erase jobId
  rw [List.erase_cons_head]
  exact h

/-- C3 witness: the theorem applied to a raising downloader on a fresh
state — after the failed run the id is not active. -/
theorem run_cleans_active_witness :
    ("job-1" ∉ (⟨[], [("job-1", newJob)], [], 0, 0⟩ : PipeState).active) ∧
    "job-1" ∉ get_active_jobs
      (run ⟨Except.error "network error", ⟨false, none, none⟩,
          ⟨true, some true, none⟩, true, Except.ok ()⟩
        ⟨some "https://github.com/no/repo", none, none⟩ "job-1"
        ⟨[], [("job-1", newJob)], [], 0, 0⟩) :=
  ⟨by decide, run_cleans_active _ _ "job-1" _ (by decide)⟩

theorem tail_succeeded_shape (env : PipeEnv) (params : Params)
    (jobId : String) (st : PipeState) (j2 : Job)
    (hlook : (runFromBuildPrompt env params jobId st
        { newJob with
          steps := [⟨"download_readme", StepStatus.done, none⟩],
          currentStep := some "download_readme",
          status := JobStatus.running }).store.lookup jobId = some j2)
    (hstat : j2.status = JobStatus.succeeded) :
    j2.finishedAt = true ∧
    j2.steps.map StepRec.name =
      ["download_readme", "build_prompt", "call_model", "validate_schema",
       "save_results", "save_to_database", "cleanup_cache"] ∧
    ∀ s ∈ j2.steps, s.status = StepStatus.done := by
  rw [buildPrompt_reduces] at hlook
  cases hc : (pyTruthy params.model && env.geminiKey) with
  | true =>
      cases hs : env.saveResults with
      | error m =>
          rw [lookup_runFromCallModel_model_err _ _ _ _ _ _ _ hc hs]
            at hlook
          obtain rfl := Option.some.inj hlook
          simp at hstat
      | ok u =>
          cases u
          rw [lookup_runFromCallModel_model_ok _ _ _ _ _ _ hc hs] at hlook
          obtain rfl := Option.some.inj hlook
          refine ⟨rfl, rfl, ?_⟩
          intro s hs2
          simp only [newJob, List.cons_append, List.nil_append] at hs2
          fin_cases hs2 <;> rfl
  | false =>
      cases hs : env.saveResults with
      | error m =>
          rw [lookup_runFromCallModel_skip_err _ _ _ _ _ _ _ hc hs]
            at hlook
          obtain rfl := Option.some.inj hlook
          simp at hstat
      | ok u =>
          cases u
          rw [lookup_runFromCallModel_skip_ok _ _ _ _ _ _ hc hs] at hlook
          obtain rfl := Option.some.inj hlook
          refine ⟨rfl, rfl, ?_⟩
          intro s hs2
          simp only [newJob, List.cons_append, List.nil_append] at hs2
          fin_cases hs2 <;> rfl

/-- C6: a fresh job run with readme_text, a truthy model, the API key
present, and a mocked extractor returning a parsed result that validated
(schema-valid JSON) ends with status succeeded, a finished_at timestamp,
result.validation_ok = true, and exactly the seven steps
download_readme, build_prompt, call_model, validate_schema, save_results,
save_to_database, cleanup_cache, in order; and conversely (for every
environment, parameters and fresh job) a final snapshot with status
succeeded always has finished_at set, exactly those seven steps in order,
and every step done — only the full-success path sets succeeded. -/
theorem run_full_success (env : PipeEnv) (params : Params)
    (jobId : String) (st : PipeState)
    (hfresh : st.store.lookup jobId = some newJob)
    (hactive : jobId ∉ st.active)
    (hurl : pyTruthy params.repo_url = false)
    (htext : pyTruthy params.readme_text = true)
    (hmodel : pyTruthy params.model = true)
    (hkey : env.geminiKey = true)
    (hparsed : env.extractWithModel.parsedPresent = true)
    (hvok : env.extractWithModel.validation_ok = some true)
    (hsave : env.saveResults = Except.ok ()) :
    (∃ j, (run env params jobId st).store.lookup jobId = some j ∧
      j.status = JobStatus.succeeded ∧ j.finishedAt = true ∧
      j.result.map ResultDoc.validation_ok = some (some true) ∧
      j.steps.map StepRec.name =
        ["download_readme", "build_prompt", "call_model",
         "validate_schema", "save_results", "save_to_database",
         "cleanup_cache"]) ∧
    (∀ env2 params2 st2, st2.store.lookup jobId = some newJob →
      jobId ∉ st2.active →
      ∀ j2, (run env2 params2 jobId st2).store.lookup jobId = some j2 →
        j2.status = JobStatus.succeeded →
        (j2.finishedAt = true ∧
         j2.steps.map StepRec.name =
           ["download_readme", "build_prompt", "call_model",
            "validate_schema", "save_results", "save_to_database",
            "cleanup_cache"] ∧
         ∀ s ∈ j2.steps, s.status = StepStatus.done)) := by
  have hcond : (pyTruthy params.model && env.geminiKey) = true := by
    rw [hmodel, hkey]
    rfl
  constructor
  · have hl1 : (run env params jobId st).store =
        (runFromDownload env params jobId
          { st with active := jobId :: st.active,
                    semAcquires := st.semAcquires + 1 } newJob).store := by
      unfold run
      rw [if_neg hactive]
      show (runInner env params jobId _).store = _
      unfold runInner
      have hl : ({ st with active := jobId :: st.active,
                           semAcquires := st.semAcquires + 1 } :
          PipeState).store.lookup jobId = some newJob := hfresh
      rw [hl]
    have hl2 : ∀ stx : PipeState,
        runFromDownload env params jobId stx newJob =
          runFromBuildPrompt env params jobId
            (writeJob (writeJob stx jobId (startStep newJob "download_readme"))
              jobId
              { newJob with
                steps := [⟨"download_readme", StepStatus.done, none⟩],
                currentStep := some "download_readme",
                status := JobStatus.running })
            { newJob with
              steps := [⟨"download_readme", StepStatus.done, none⟩],
              currentStep := some "download_readme",
              status := JobStatus.running } := by
      intro stx
      simp only [runFromDownload, hurl, htext, Bool.not_true, Bool.not_false,
        Bool.true_and, Bool.false_eq_true, if_false, doneStep_shape, newJob,
        List.nil_append]
    rw [hl1, hl2, buildPrompt_reduces,
      lookup_runFromCallModel_model_ok _ _ _ _ _ _ hcond hsave]
    refine ⟨_, rfl, rfl, rfl, ?_, rfl⟩
    simp [hparsed, hvok]
  · intro env2 params2 st2 hfresh2 hactive2 j2 hlook2 hstat2
    have hl1 : (run env2 params2 jobId st2).store =
        (runFromDownload env2 params2 jobId
          { st2 with active := jobId :: st2.active,
                     semAcquires := st2.semAcquires + 1 } newJob).store := by
      unfold run
      rw [if_neg hactive2]
      show (runInner env2 params2 jobId _).store = _
      unfold runInner
      have hl : ({ st2 with
          active := jobId :: st2.active,
          semAcquires := st2.semAcquires + 1 } :
          PipeState).store.lookup jobId = some newJob := hfresh2
      rw [hl]
    rw [hl1] at hlook2
    simp only [runFromDownload] at hlook2
    split at hlook2
    · unfold failJob at hlook2
      rw [lookup_writeJob] at hlook2
      obtain rfl := Option.some.inj hlook2
      simp [startStep] at hstat2
    · split at hlook2
      · split at hlook2
        · unfold failJob at hlook2
          rw [lookup_writeJob] at hlook2
          obtain rfl := Option.some.inj hlook2
          simp [startStep] at hstat2
        · rw [doneStep_shape] at hlook2
          exact tail_succeeded_shape _ _ _ _ _ (by simpa [newJob] using hlook2)
            hstat2
      · rw [doneStep_shape] at hlook2
        exact tail_succeeded_shape _ _ _ _ _ (by simpa [newJob] using hlook2)
          hstat2

/-- C6 witness: the theorem applied to a concrete fresh job, readme_text
params, a model, the key present, a schema-valid mocked extraction and a
working save step. -/
theorem run_full_success_witness :
    ((⟨[], [("job-1", newJob)], [], 0, 0⟩ : PipeState).store.lookup
        "job-1" = some newJob) ∧
    ∃ j, (run ⟨Except.ok "p", ⟨false, none, none⟩, ⟨true, some true, none⟩,
          true, Except.ok ()⟩
        ⟨none, some "# Hello", some "gemini-2.5-flash"⟩ "job-1"
        ⟨[], [("job-1", newJob)], [], 0, 0⟩).store.lookup "job-1" =
          some j ∧
      j.status = JobStatus.succeeded ∧ j.finishedAt = true ∧
      j.result.map ResultDoc.validation_ok = some (some true) ∧
      j.steps.map StepRec.name =
        ["download_readme", "build_prompt", "call_model",
         "validate_schema", "save_results", "save_to_database",
         "cleanup_cache"] :=
  ⟨rfl, (run_full_success
    ⟨Except.ok "p", ⟨false, none, none⟩, ⟨true, some true, none⟩,
      true, Except.ok ()⟩
    ⟨none, some "# Hello", some "gemini-2.5-flash"⟩ "job-1"
    ⟨[], [("job-1", newJob)], [], 0, 0⟩ rfl (by decide) rfl rfl rfl rfl
    rfl rfl rfl).1⟩

/-- C7: when the downloader raises during the download step of a run on
a fresh job with a truthy repo_url, the final snapshot has status failed,
the error is exactly the raised message, and the steps list holds only
download_readme — no step after the failing one is attempted. -/
theorem run_download_failure (env : PipeEnv) (params : Params)
    (jobId : String) (st : PipeState) (m : String)
    (hfresh : st.store.lookup jobId = some newJob)
    (hactive : jobId ∉ st.active)
    (hurl : pyTruthy params.repo_url = true)
    (hdl : env.download = Except.error m) :
    ∃ j, (run env params jobId st).store.lookup jobId = some j ∧
      j.status = JobStatus.failed ∧ j.error = some m ∧
      j.steps.map StepRec.name = ["download_readme"] := by
  have hstore : (run env params jobId st).store =
      (runFromDownload env params jobId
        { st with active := jobId :: st.active,
                  semAcquires := st.semAcquires + 1 } newJob).store := by
    unfold run
    rw [if_neg hactive]
    show (runInner env params jobId _).store = _
    unfold runInner
    have hl : ({ st with active := jobId :: st.active,
                         semAcquires := st.semAcquires + 1 } :
        PipeState).store.lookup jobId = some newJob := hfresh
    rw [hl]
  rw [hstore]
  unfold runFromDownload
  rw [hurl, hdl]
  simp only [Bool.not_true, Bool.false_and, if_false]
  unfold failJob
  exact ⟨_, lookup_writeJob _ _ _, rfl, rfl, rfl⟩

/-- C7 witness: the theorem applied to a downloader raising
RuntimeError("network error") on a concrete fresh job. -/
theorem run_download_failure_witness :
    ((⟨Except.error "network error", ⟨false, none, none⟩,
        ⟨true, some true, none⟩, true, Except.ok ()⟩ :
        PipeEnv).download = Except.error "network error") ∧
    ∃ j, (run ⟨Except.error "network error", ⟨false, none, none⟩,
          ⟨true, some true, none⟩, true, Except.ok ()⟩
        ⟨some "https://github.com/no/repo", none, none⟩ "job-1"
        ⟨[], [("job-1", newJob)], [], 0, 0⟩).store.lookup "job-1" =
          some j ∧
      j.status = JobStatus.failed ∧ j.error = some "network error" ∧
      j.steps.map StepRec.name = ["download_readme"] :=
  ⟨rfl, run_download_failure
    ⟨Except.error "network error", ⟨false, none, none⟩,
      ⟨true, some true, none⟩, true, Except.ok ()⟩
    ⟨some "https://github.com/no/repo", none, none⟩ "job-1"
    ⟨[], [("job-1", newJob)], [], 0, 0⟩ "network error" rfl (by decide)
    rfl rfl⟩

/-- C8 counterexample.  Running a fresh job whose params supply neither
repo_url nor readme_text still creates a step record: `_start_step(job,
"download_readme")` on line 160 runs before the input check on line 163,
so the final snapshot contains one step named download_readme — the
claim says the error is detected before any step starts and no step
record is created. -/
theorem missing_input_still_creates_step :
    ((run ⟨Except.ok "p", ⟨false, none, none⟩, ⟨true, some true, none⟩,
          true, Except.ok ()⟩
        ⟨none, none, none⟩ "job-1"
        ⟨[], [("job-1", newJob)], [], 0, 0⟩).store.lookup "job-1").map
        (fun j => j.steps.map StepRec.name) = some ["download_readme"] ∧
    ((run ⟨Except.ok "p", ⟨false, none, none⟩, ⟨true, some true, none⟩,
          true, Except.ok ()⟩
        ⟨none, none, none⟩ "job-1"
        ⟨[], [("job-1", newJob)], [], 0, 0⟩).store.lookup "job-1").map
        (fun j => j.steps.length) ≠ some 0 :=
  ⟨by decide, by decide⟩

/-- C8 (amended): when the params supply neither repo_url nor
readme_text on a fresh job, the input error is detected inside the first
step (a download_readme step record is created by `_start_step`, and it
is the only step — no later step is attempted) and the job is marked
failed immediately with the ValueError message and a finished_at
timestamp. -/
theorem run_missing_input (env : PipeEnv) (params : Params)
    (jobId : String) (st : PipeState)
    (hfresh : st.store.lookup jobId = some newJob)
    (hactive : jobId ∉ st.active)
    (hurl : pyTruthy params.repo_url = false)
    (htext : pyTruthy params.readme_text = false) :
    ∃ j, (run env params jobId st).store.lookup jobId = some j ∧
      j.status = JobStatus.failed ∧
      j.error = some "Either repo_url or readme_text must be provided" ∧
      j.finishedAt = true ∧
      j.steps.map StepRec.name = ["download_readme"] := by
  have hstore : (run env params jobId st).store =
      (runFromDownload env params jobId
        { st with active := jobId :: st.active,
                  semAcquires := st.semAcquires + 1 } newJob).store := by
    unfold run
    rw [if_neg hactive]
    show (runInner env params jobId _).store = _
    unfold runInner
    have hl : ({ st with active := jobId :: st.active,
                         semAcquires := st.semAcquires + 1 } :
        PipeState).store.lookup jobId = some newJob := hfresh
    rw [hl]
  rw [hstore]
  unfold runFromDownload
  rw [hurl, htext]
  simp only [Bool.not_false, Bool.true_and, if_true]
  unfold failJob
  exact ⟨_, lookup_writeJob _ _ _, rfl, rfl, rfl, rfl⟩

/-- C8 witness: the amended theorem applied to empty params on a concrete
fresh job. -/
theorem run_missing_input_witness :
    pyTruthy (⟨none, none, none⟩ : Params).repo_url = false ∧
    ∃ j, (run ⟨Except.ok "p", ⟨false, none, none⟩, ⟨true, some true, none⟩,
          true, Except.ok ()⟩
        ⟨none, none, none⟩ "job-1"
        ⟨[], [("job-1", newJob)], [], 0, 0⟩).store.lookup "job-1" =
          some j ∧
      j.status = JobStatus.failed ∧
      j.error = some "Either repo_url or readme_text must be provided" ∧
      j.finishedAt = true ∧
      j.steps.map StepRec.name = ["download_readme"] :=
  ⟨rfl, run_missing_input
    ⟨Except.ok "p", ⟨false, none, none⟩, ⟨true, some true, none⟩,
      true, Except.ok ()⟩
    ⟨none, none, none⟩ "job-1"
    ⟨[], [("job-1", newJob)], [], 0, 0⟩ rfl (by decide) rfl rfl⟩

/-! ### Embedding of backend/evaluate/extractor.py (extract_json_from_readme)

Only the data flow the claims mention is modelled: the success flag, the
prompt, the raw model output, the parsed JSON value with its metadata
post-processing, the validation fields and the recovery suggestions.
The progress tracker driven inside the function is the one already
modelled above and does not influence any returned field other than
progress_history (not claimed); timing and token accounting are wall
clock and are dropped.  `json.loads` together with the two postprocessors
(`fix_string_arrays_in_json`, `remove_disallowed_category_fields`) is the
environment function `parseJson` (none = JSONDecodeError), and
`jsonschema.validate` is `validate` (none = pass, some m =
ValidationError with message m). -/

/-- Parsed JSON value, as far as this code inspects one: strings (compared
against "N/A" and for truthiness), objects (string-keyed, insertion
ordered, as Python dicts), and anything else reduced to its Python
truthiness. -/
inductive PJson where
  | str (s : String)
  | obj (fields : List (String × PJson))
  | lit (truthy : Bool)

/-- Python truthiness of a parsed value: empty strings, empty dicts and
falsy literals are falsy. -/
def pjTruthy : PJson → Bool
  | PJson.str s => !(s == "")
  | PJson.obj fields => !fields.isEmpty
  | PJson.lit b => b

/-- Whether a value equals the Python string "N/A" (a non-string value
never does). -/
def isNA : PJson → Bool
  | PJson.str s => s == "N/A"
  | _ => false

/-- Python dict assignment `d[k] = v`: replace in place, or append a new
key at the end (insertion order). -/
def setKey (fields : List (String × PJson)) (k : String) (v : PJson) :
    List (String × PJson) :=
  if (fields.lookup k).isSome then
    fields.map (fun p => if p.1 = k then (k, v) else p)
  else fields ++ [(k, v)]

/-- The overwrite condition of extractor.py lines 203-204 etc.:
`current = metadata.get(k, "")` then `if not current or current == "N/A"`
— the key is filled when missing, falsy, or the string "N/A". -/
def needsFill (fields : List (String × PJson)) (k : String) : Bool :=
  match fields.lookup k with
  | none => true
  | some v => !pjTruthy v || isNA v

/-- The sequence of conditional fills on the metadata dict
(extractor.py lines 201-239): repository_owner, repository_name,
repository_link and readme_raw_link from caller context when missing,
falsy or "N/A"; evaluation_date always; evaluator always when a model
name is present. -/
def fillMetadata (owner repo rawLink mdl : Option String) (today : String)
    (ms : List (String × PJson)) : List (String × PJson) :=
  let ms1 :=
    if pyTruthy owner && needsFill ms "repository_owner" then
      setKey ms "repository_owner" (PJson.str (owner.getD ""))
    else ms
  let ms2 :=
    if pyTruthy repo && needsFill ms1 "repository_name" then
      setKey ms1 "repository_name" (PJson.str (repo.getD ""))
    else ms1
  let ms3 :=
    if pyTruthy owner && pyTruthy repo &&
        needsFill ms2 "repository_link" then
      setKey ms2 "repository_link"
        (PJson.str ("https://github.com/" ++ owner.getD "" ++
          "/" ++ repo.getD ""))
    else ms2
  let ms4 :=
    if pyTruthy rawLink && needsFill ms3 "readme_raw_link" then
      setKey ms3 "readme_raw_link" (PJson.str (rawLink.getD ""))
    else ms3
  let ms5 := setKey ms4 "evaluation_date" (PJson.str today)
  if pyTruthy mdl then setKey ms5 "evaluator" (PJson.str (mdl.getD ""))
  else ms5

/-- Line 196-197: `if "metadata" not in result_obj.parsed:
result_obj.parsed["metadata"] = {}`. -/
def insertMetadataKey (fields : List (String × PJson)) :
    List (String × PJson) :=
  if (fields.lookup "metadata").isSome then fields
  else fields ++ [("metadata", PJson.obj [])]

/-- Metadata post-processing on a successfully parsed value
(extractor.py lines 193-239).  Runs only on a truthy dict; an existing
non-dict metadata value makes the first attribute access or item
assignment raise (TypeError/AttributeError), modelled as `Except.error`
— the exception reaches the model-call handler on line 283 before any
field is mutated.  Otherwise a missing metadata key is first created
empty, and the fill sequence runs on the metadata dict. -/
def applyMetadata (owner repo rawLink mdl : Option String) (today : String)
    (p : PJson) : Except Unit PJson :=
  match p with
  | PJson.obj fields =>
      if fields.isEmpty then Except.ok p
      else
        let fields1 := insertMetadataKey fields
        match fields1.lookup "metadata" with
        | some (PJson.obj ms) =>
            Except.ok (PJson.obj (setKey fields1 "metadata"
              (PJson.obj (fillMetadata owner repo rawLink mdl today ms))))
        | some _ => Except.error ()
        | none => Except.ok (PJson.obj fields1)
  | _ => Except.ok p

/-- Markdown fence cleanup before json.loads (extractor.py lines
169-178). -/
def cleanRaw (raw : String) : String :=
  let c := raw.trim
  let c1 :=
    if c.startsWith "```json" then c.drop 7
    else if c.startsWith "```" then c.drop 3
    else c
  let c2 := if c1.endsWith "```" then c1.dropRight 3 else c1
  c2.trim

/-- The fields of `EvaluationResult` the claims mention (progress
history, timing and tokens dropped; `validation_errors` reduced to the
ValidationError message). -/
structure EvaluationResult where
  success : Bool
  prompt : String
  model_output : Option String
  parsed : Option PJson
  validation_ok : Option Bool
  validation_errors : Option String
  recovery_suggestions : List String

/-- External collaborators of one extraction.  `promptPhase` covers the
prompt-building phase (schema load, PromptBuilder, build) whose
exceptions reach the top-level handler on line 304; `schemaObjPresent`
is whether the schema text parsed into an object (line 53-57);
`modelCall` is the streaming client (exceptions land in the handler on
line 283); `parseJson` and `validate` as described above. -/
structure ExtractEnv where
  promptPhase : Except String String
  schemaObjPresent : Bool
  modelCall : Except String (List String)
  parseJson : String → Option PJson
  validate : PJson → Option String

/-- Validation stage (extractor.py lines 247-281): with a schema object
present, a pass sets validation_ok true; a ValidationError sets it
false, records the error and appends a recovery suggestion; without a
schema object both fields are reset to None. -/
def validateSection (env : ExtractEnv) (base2 : EvaluationResult)
    (p2 : PJson) : EvaluationResult :=
  if env.schemaObjPresent then
    match env.validate p2 with
    | none =>
        { base2 with validation_ok := some true, validation_errors := none }
    | some msg =>
        { base2 with
          validation_ok := some false
          validation_errors := some msg
          recovery_suggestions := base2.recovery_suggestions ++
            ["Field validation failed at: " ++ msg] }
  else
    { base2 with validation_ok := none, validation_errors := none }

/-- Parse stage (extractor.py lines 163-245): a JSONDecodeError leaves
parsed None with a recovery suggestion and skips validation; a parse
success assigns parsed and runs the metadata post-processing, whose
exception (non-dict metadata) is caught by the model-call handler with
parsed still assigned and validation skipped; otherwise validation
runs on the post-processed value. -/
def parsedSection (env : ExtractEnv)
    (owner repo rrl mdl : Option String) (today : String)
    (base1 : EvaluationResult) (cleaned : String) : EvaluationResult :=
  match env.parseJson cleaned with
  | none =>
      { base1 with
        parsed := none
        recovery_suggestions := base1.recovery_suggestions ++
          ["Model output was not valid JSON. Try with a different model or adjust temperature."] }
  | some p =>
      match applyMetadata owner repo rrl mdl today p with
      | Except.error _ =>
          { base1 with
            parsed := some p
            recovery_suggestions := base1.recovery_suggestions ++
              ["Model call failed: metadata update raised"] }
      | Except.ok p2 =>
          validateSection env { base1 with parsed := some p2 } p2

/-- Model-call stage (extractor.py lines 122-286): a raising client only
appends a recovery suggestion; otherwise the joined stream is the raw
model output, an empty or all-whitespace response is the distinct
empty-response failure, and anything else is parsed. -/
def modelSection (env : ExtractEnv)
    (owner repo rrl mdl : Option String) (today : String)
    (base : EvaluationResult) : EvaluationResult :=
  match env.modelCall with
  | Except.error e =>
      { base with recovery_suggestions := base.recovery_suggestions ++
        ["Model call failed: " ++ e] }
  | Except.ok chunks =>
      let raw := String.join chunks
      let base1 := { base with model_output := some raw }
      -- `not raw or not raw.strip()`: true exactly when the response is
      -- empty or all-whitespace
      if raw.data.all Char.isWhitespace then
        { base1 with recovery_suggestions := base1.recovery_suggestions ++
          ["Model returned empty response. Check API key, rate limits, or try again."] }
      else
        parsedSection env owner repo rrl mdl today base1 (cleanRaw raw)

/-- Shallow embedding of `extract_json_from_readme` (extractor.py lines
18-312) over an `ExtractEnv` and the caller-supplied model / owner /
repo / readme_raw_link arguments plus the current date.  An exception in
the prompt-building phase reaches the top-level handler (success False);
otherwise the result starts successful with the built prompt and, when a
model was requested, flows through the model-call stage. -/
def extract_json_from_readme (env : ExtractEnv)
    (mdl owner repo readme_raw_link : Option String) (today : String) :
    EvaluationResult :=
  match env.promptPhase with
  | Except.error e =>
      { success := false, prompt := "", model_output := none,
        parsed := none, validation_ok := none, validation_errors := none,
        recovery_suggestions := ["Unexpected error: " ++ e] }
  | Except.ok prompt =>
      let base : EvaluationResult :=
        { success := true, prompt := prompt, model_output := none,
          parsed := none, validation_ok := none, validation_errors := none,
          recovery_suggestions := [] }
      if pyTruthy mdl then
        modelSection env owner repo readme_raw_link mdl today base
      else base

/-- Metadata field of a returned result: the value under key `k` of the
metadata object of the parsed payload, when those exist. -/
def metaField (r : EvaluationResult) (k : String) : Option PJson :=
  match r.parsed with
  | some (PJson.obj fields) =>
      match fields.lookup "metadata" with
      | some (PJson.obj ms) => ms.lookup k
      | _ => none
  | _ => none

/-- String content of an optional parsed value (used to compare metadata
fields without decidable equality on the nested PJson type). -/
def pjStr : Option PJson → Option String
  | some (PJson.str s) => some s
  | _ => none

/-! ### Helper lemmas about the extractor model -/
theorem lookup_map_replace_ne {β : Type} (l : List (String × β))
    (k : String) (v : β) (k' : String) (hne : k' ≠ k) :
    ((l.map fun p => if p.1 = k then (k, v) else p).lookup k') =
      l.lookup k' := by
  induction l with
  | nil => rfl
  | cons p rest ih =>
      obtain ⟨a, b⟩ := p
      by_cases ha : a = k
      · subst ha
        rw [List.map_cons, if_pos rfl]
        have hbeq : (k' == a) = false := by
          rw [beq_eq_false_iff_ne]
          exact hne
        rw [List.lookup, hbeq, List.lookup, hbeq]
        exact ih
      · rw [List.map_cons, if_neg (by simpa using ha)]
        rw [List.lookup, List.lookup]
        cases hbeq : (k' == a) with
        | true => rfl
        | false => exact ih

theorem lookup_append_left_some {β : Type} (l₁ l₂ : List (String × β))
    (k : String) (w : β) (h : l₁.lookup k = some w) :
    (l₁ ++ l₂).lookup k = some w := by
  induction l₁ with
  | nil => simp [List.lookup] at h
  | cons p rest ih =>
      obtain ⟨a, b⟩ := p
      rw [List.lookup] at h
      rw [List.cons_append, List.lookup]
      cases hbeq : (k == a) with
      | true => rw [hbeq] at h; exact h
      | false => rw [hbeq] at h; exact ih h

theorem lookup_setKey_self (fields : List (String × PJson)) (k : String)
    (v : PJson) : (setKey fields k v).lookup k = some v := by
  unfold setKey
  by_cases h : (fields.lookup k).isSome
  · rw [if_pos h]
    exact lookup_map_replace _ _ _ h
  · rw [if_neg h]
    rw [lookup_append_of_none]
    · simp [List.lookup]
    · exact Option.not_isSome_iff_eq_none.mp h

theorem lookup_setKey_ne (fields : List (String × PJson)) (k : String)
    (v : PJson) (k' : String) (hne : k' ≠ k) :
    (setKey fields k v).lookup k' = fields.lookup k' := by
  unfold setKey
  by_cases h : (fields.lookup k).isSome
  · rw [if_pos h]
    exact lookup_map_replace_ne _ _ _ _ hne
  · rw [if_neg h]
    cases hl : fields.lookup k' with
    | some w => exact lookup_append_left_some _ _ _ _ hl
    | none =>
        rw [lookup_append_of_none _ _ _ hl]
        have hbeq : (k' == k) = false := by
          rw [beq_eq_false_iff_ne]
          exact hne
        simp [List.lookup, hbeq]

theorem lookup_condSetKey_ne (c : Bool) (fields : List (String × PJson))
    (k : String) (v : PJson) (k' : String) (hne : k' ≠ k) :
    ((if c then setKey fields k v else fields).lookup k') =
      fields.lookup k' := by
  cases c with
  | true => exact lookup_setKey_ne _ _ _ _ hne
  | false => rfl
theorem needsFill_condSetKey_ne (c : Bool) (fields : List (String × PJson))
    (k : String) (v : PJson) (k' : String) (hne : k' ≠ k) :
    needsFill (if c then setKey fields k v else fields) k' =
      needsFill fields k' := by
  unfold needsFill
  rw [lookup_condSetKey_ne _ _ _ _ _ hne]

theorem fillMetadata_evaluator (owner repo rl mdl : Option String)
    (today : String) (ms : List (String × PJson))
    (hm : pyTruthy mdl = true) :
    (fillMetadata owner repo rl mdl today ms).lookup "evaluator" =
      some (PJson.str (mdl.getD "")) := by
  simp only [fillMetadata, hm, if_true]
  exact lookup_setKey_self _ _ _

theorem fillMetadata_date (owner repo rl mdl : Option String)
    (today : String) (ms : List (String × PJson)) :
    (fillMetadata owner repo rl mdl today ms).lookup "evaluation_date" =
      some (PJson.str today) := by
  cases hm : pyTruthy mdl with
  | true =>
      simp only [fillMetadata, hm, if_true]
      rw [lookup_setKey_ne _ _ _ _ (by decide)]
      exact lookup_setKey_self _ _ _
  | false =>
      simp only [fillMetadata, hm, Bool.false_eq_true, if_false]
      exact lookup_setKey_self _ _ _

theorem fillMetadata_owner_fill (owner repo rl mdl : Option String)
    (today : String) (ms : List (String × PJson))
    (ho : pyTruthy owner = true)
    (hnf : needsFill ms "repository_owner" = true) :
    (fillMetadata owner repo rl mdl today ms).lookup "repository_owner" =
      some (PJson.str (owner.getD "")) := by
  simp only [fillMetadata]
  rw [lookup_condSetKey_ne _ _ _ _ _ (by decide)]
  rw [lookup_setKey_ne _ _ _ _ (by decide)]
  rw [lookup_condSetKey_ne _ _ _ _ _ (by decide)]
  rw [lookup_condSetKey_ne _ _ _ _ _ (by decide)]
  rw [lookup_condSetKey_ne _ _ _ _ _ (by decide)]
  rw [ho, hnf]
  simp only [Bool.true_and, if_true]
  exact lookup_setKey_self _ _ _

theorem fillMetadata_owner_keep (owner repo rl mdl : Option String)
    (today : String) (ms : List (String × PJson))
    (hc : (pyTruthy owner && needsFill ms "repository_owner") = false) :
    (fillMetadata owner repo rl mdl today ms).lookup "repository_owner" =
      ms.lookup "repository_owner" := by
  simp only [fillMetadata]
  rw [lookup_condSetKey_ne _ _ _ _ _ (by decide)]
  rw [lookup_setKey_ne _ _ _ _ (by decide)]
  rw [lookup_condSetKey_ne _ _ _ _ _ (by decide)]
  rw [lookup_condSetKey_ne _ _ _ _ _ (by decide)]
  rw [lookup_condSetKey_ne _ _ _ _ _ (by decide)]
  rw [hc]
  simp only [Bool.false_eq_true, if_false]
theorem fillMetadata_name_fill (owner repo rl mdl : Option String)
    (today : String) (ms : List (String × PJson))
    (hr : pyTruthy repo = true)
    (hnf : needsFill ms "repository_name" = true) :
    (fillMetadata owner repo rl mdl today ms).lookup "repository_name" =
      some (PJson.str (repo.getD "")) := by
  simp only [fillMetadata]
  rw [lookup_condSetKey_ne _ _ _ _ _ (by decide)]
  rw [lookup_setKey_ne _ _ _ _ (by decide)]
  rw [lookup_condSetKey_ne _ _ _ _ _ (by decide)]
  rw [lookup_condSetKey_ne _ _ _ _ _ (by decide)]
  rw [needsFill_condSetKey_ne _ _ _ _ _ (by decide)]
  rw [hr, hnf]
  simp only [Bool.true_and, if_true]
  exact lookup_setKey_self _ _ _

theorem fillMetadata_name_keep (owner repo rl mdl : Option String)
    (today : String) (ms : List (String × PJson))
    (hc : (pyTruthy repo && needsFill ms "repository_name") = false) :
    (fillMetadata owner repo rl mdl today ms).lookup "repository_name" =
      ms.lookup "repository_name" := by
  simp only [fillMetadata]
  rw [lookup_condSetKey_ne _ _ _ _ _ (by decide)]
  rw [lookup_setKey_ne _ _ _ _ (by decide)]
  rw [lookup_condSetKey_ne _ _ _ _ _ (by decide)]
  rw [lookup_condSetKey_ne _ _ _ _ _ (by decide)]
  rw [needsFill_condSetKey_ne _ _ _ _ _ (by decide)]
  rw [hc]
  simp only [Bool.false_eq_true, if_false]
  rw [lookup_condSetKey_ne _ _ _ _ _ (by decide)]

theorem fillMetadata_link_fill (owner repo rl mdl : Option String)
    (today : String) (ms : List (String × PJson))
    (ho : pyTruthy owner = true) (hr : pyTruthy repo = true)
    (hnf : needsFill ms "repository_link" = true) :
    (fillMetadata owner repo rl mdl today ms).lookup "repository_link" =
      some (PJson.str ("https://github.com/" ++ owner.getD "" ++ "/" ++
        repo.getD "")) := by
  simp only [fillMetadata]
  rw [lookup_condSetKey_ne _ _ _ _ _ (by decide)]
  rw [lookup_setKey_ne _ _ _ _ (by decide)]
  rw [lookup_condSetKey_ne _ _ _ _ _ (by decide)]
  rw [needsFill_condSetKey_ne _ _ _ _ _ (by decide)]
  rw [needsFill_condSetKey_ne _ _ _ _ _ (by decide)]
  rw [ho, hr, hnf]
  simp only [Bool.true_and, if_true]
  exact lookup_setKey_self _ _ _

theorem fillMetadata_link_keep (owner repo rl mdl : Option String)
    (today : String) (ms : List (String × PJson))
    (hc : (pyTruthy owner && pyTruthy repo &&
      needsFill ms "repository_link") = false) :
    (fillMetadata owner repo rl mdl today ms).lookup "repository_link" =
      ms.lookup "repository_link" := by
  simp only [fillMetadata]
  rw [lookup_condSetKey_ne _ _ _ _ _ (by decide)]
  rw [lookup_setKey_ne _ _ _ _ (by decide)]
  rw [lookup_condSetKey_ne _ _ _ _ _ (by decide)]
  rw [needsFill_condSetKey_ne _ _ _ _ _ (by decide)]
  rw [needsFill_condSetKey_ne _ _ _ _ _ (by decide)]
  rw [hc]
  simp only [Bool.false_eq_true, if_false]
  rw [lookup_condSetKey_ne _ _ _ _ _ (by decide)]
  rw [lookup_condSetKey_ne _ _ _ _ _ (by decide)]

theorem fillMetadata_rawlink_fill (owner repo rl mdl : Option String)
    (today : String) (ms : List (String × PJson))
    (hrl : pyTruthy rl = true)
    (hnf : needsFill ms "readme_raw_link" = true) :
    (fillMetadata owner repo rl mdl today ms).lookup "readme_raw_link" =
      some (PJson.str (rl.getD "")) := by
  simp only [fillMetadata]
  rw [lookup_condSetKey_ne _ _ _ _ _ (by decide)]
  rw [lookup_setKey_ne _ _ _ _ (by decide)]
  rw [needsFill_condSetKey_ne _ _ _ _ _ (by decide)]
  rw [needsFill_condSetKey_ne _ _ _ _ _ (by decide)]
  rw [needsFill_condSetKey_ne _ _ _ _ _ (by decide)]
  rw [hrl, hnf]
  simp only [Bool.true_and, if_true]
  exact lookup_setKey_self _ _ _

theorem fillMetadata_rawlink_keep (owner repo rl mdl : Option String)
    (today : String) (ms : List (String × PJson))
    (hc : (pyTruthy rl && needsFill ms "readme_raw_link") = false) :
    (fillMetadata owner repo rl mdl today ms).lookup "readme_raw_link" =
      ms.lookup "readme_raw_link" := by
  simp only [fillMetadata]
  rw [lookup_condSetKey_ne _ _ _ _ _ (by decide)]
  rw [lookup_setKey_ne _ _ _ _ (by decide)]
  rw [needsFill_condSetKey_ne _ _ _ _ _ (by decide)]
  rw [needsFill_condSetKey_ne _ _ _ _ _ (by decide)]
  rw [needsFill_condSetKey_ne _ _ _ _ _ (by decide)]
  rw [hc]
  simp only [Bool.false_eq_true, if_false]
  rw [lookup_condSetKey_ne _ _ _ _ _ (by decide)]
  rw [lookup_condSetKey_ne _ _ _ _ _ (by decide)]
  rw [lookup_condSetKey_ne _ _ _ _ _ (by decide)]
theorem validateSection_parsed (env : ExtractEnv)
    (base2 : EvaluationResult) (p2 : PJson) :
    (validateSection env base2 p2).parsed = base2.parsed := by
  unfold validateSection
  cases hs : env.schemaObjPresent with
  | false => simp only [hs, Bool.false_eq_true, if_false]
  | true =>
      simp only [hs, if_true]
      cases env.validate p2 <;> rfl

theorem validateSection_success (env : ExtractEnv)
    (base2 : EvaluationResult) (p2 : PJson) :
    (validateSection env base2 p2).success = base2.success := by
  unfold validateSection
  cases hs : env.schemaObjPresent with
  | false => simp only [hs, Bool.false_eq_true, if_false]
  | true =>
      simp only [hs, if_true]
      cases env.validate p2 <;> rfl

theorem parsedSection_success (env : ExtractEnv)
    (owner repo rrl mdl : Option String) (today : String)
    (base1 : EvaluationResult) (cleaned : String) :
    (parsedSection env owner repo rrl mdl today base1 cleaned).success =
      base1.success := by
  unfold parsedSection
  cases env.parseJson cleaned with
  | none => rfl
  | some p =>
      dsimp only
      cases applyMetadata owner repo rrl mdl today p with
      | error u => rfl
      | ok p2 => rw [validateSection_success]

theorem modelSection_success (env : ExtractEnv)
    (owner repo rrl mdl : Option String) (today : String)
    (base : EvaluationResult) :
    (modelSection env owner repo rrl mdl today base).success =
      base.success := by
  unfold modelSection
  cases env.modelCall with
  | error e => rfl
  | ok chunks =>
      cases hb : (String.join chunks).data.all Char.isWhitespace with
      | true => simp only [hb, if_true]
      | false =>
          simp only [hb, Bool.false_eq_true, if_false]
          rw [parsedSection_success]

theorem extract_metaField_eq (env : ExtractEnv)
    (mdl owner repo rrl : Option String) (today : String)
    (prompt : String) (chunks : List String)
    (fields ms0 : List (String × PJson))
    (hp : env.promptPhase = Except.ok prompt)
    (hm : pyTruthy mdl = true)
    (hc : env.modelCall = Except.ok chunks)
    (hnb : ((String.join chunks).data.all Char.isWhitespace) = false)
    (hpj : env.parseJson (cleanRaw (String.join chunks)) =
      some (PJson.obj fields))
    (hfne : fields.isEmpty = false)
    (hms : (insertMetadataKey fields).lookup "metadata" =
      some (PJson.obj ms0)) :
    ∀ k, metaField (extract_json_from_readme env mdl owner repo rrl today)
        k = (fillMetadata owner repo rrl mdl today ms0).lookup k := by
  intro k
  unfold extract_json_from_readme
  rw [hp]
  simp only [hm, if_true]
  unfold modelSection
  rw [hc]
  simp only [hnb, Bool.false_eq_true, if_false]
  unfold parsedSection
  rw [hpj]
  simp only [applyMetadata, hfne, Bool.false_eq_true, if_false]
  rw [hms]
  unfold metaField
  rw [validateSection_parsed]
  simp only [lookup_setKey_self]

theorem extract_success_of_ok (env : ExtractEnv)
    (mdl owner repo rrl : Option String) (today : String) (p : String)
    (hp : env.promptPhase = Except.ok p) :
    (extract_json_from_readme env mdl owner repo rrl today).success =
      true := by
  unfold extract_json_from_readme
  rw [hp]
  cases hm : pyTruthy mdl with
  | false => simp only [hm, Bool.false_eq_true, if_false]
  | true =>
      simp only [hm, if_true]
      rw [modelSection_success]

/-! ### Claim theorems about extract_json_from_readme -/

/-- C9 counterexample.  Two calls with the same caller-supplied model,
owner, repo, readme_raw_link and date, differing only in the model
output: when the parsed output carries repository_owner = "evil", the
returned metadata keeps "evil" (the fill on lines 202-206 only fires for
a missing, empty or "N/A" value); when the parsed output leaves the
field out, it is filled with the caller value "alice".  The field is
therefore not determined by the caller arguments alone, against the
claim. -/
theorem repository_owner_follows_model_output :
    pjStr (metaField (extract_json_from_readme
        ⟨Except.ok "P", false, Except.ok ["x"],
         fun _ => some (PJson.obj [("metadata", PJson.obj
           [("repository_owner", PJson.str "evil")])]),
         fun _ => none⟩
        (some "m") (some "alice") (some "r") (some "L") "2026-10-12")
      "repository_owner") = some "evil" ∧
    pjStr (metaField (extract_json_from_readme
        ⟨Except.ok "P", false, Except.ok ["x"],
         fun _ => some (PJson.obj [("metadata", PJson.obj [])]),
         fun _ => none⟩
        (some "m") (some "alice") (some "r") (some "L") "2026-10-12")
      "repository_owner") = some "alice" ∧
    (some "evil" : Option String) ≠ some "alice" :=
  ⟨rfl, rfl, by decide⟩

/-- C9 (amended): on a successful parse of a nonempty JSON object whose
metadata entry is an object (ms0, possibly freshly created empty), the
evaluator and evaluation-date fields of the returned metadata are
force-overwritten from trusted caller context — evaluator is exactly the
caller model name and evaluation_date exactly the current date,
independent of model output — while the repository owner / name / link
and readme raw link are overwritten from caller context exactly when the
caller value is truthy and the model-produced value is missing, empty or
"N/A", and are otherwise kept from the model output. -/
theorem extract_metadata_provenance (env : ExtractEnv)
    (mdl owner repo rrl : Option String) (today : String)
    (prompt : String) (chunks : List String)
    (fields ms0 : List (String × PJson))
    (hp : env.promptPhase = Except.ok prompt)
    (hm : pyTruthy mdl = true)
    (hc : env.modelCall = Except.ok chunks)
    (hnb : ((String.join chunks).data.all Char.isWhitespace) = false)
    (hpj : env.parseJson (cleanRaw (String.join chunks)) =
      some (PJson.obj fields))
    (hfne : fields.isEmpty = false)
    (hms : (insertMetadataKey fields).lookup "metadata" =
      some (PJson.obj ms0)) :
    (metaField (extract_json_from_readme env mdl owner repo rrl today)
        "evaluator" = some (PJson.str (mdl.getD "")) ∧
     metaField (extract_json_from_readme env mdl owner repo rrl today)
        "evaluation_date" = some (PJson.str today)) ∧
    ((pyTruthy owner = true → needsFill ms0 "repository_owner" = true →
      metaField (extract_json_from_readme env mdl owner repo rrl today)
        "repository_owner" = some (PJson.str (owner.getD ""))) ∧
     ((pyTruthy owner && needsFill ms0 "repository_owner") = false →
      metaField (extract_json_from_readme env mdl owner repo rrl today)
        "repository_owner" = ms0.lookup "repository_owner")) ∧
    ((pyTruthy repo = true → needsFill ms0 "repository_name" = true →
      metaField (extract_json_from_readme env mdl owner repo rrl today)
        "repository_name" = some (PJson.str (repo.getD ""))) ∧
     ((pyTruthy repo && needsFill ms0 "repository_name") = false →
      metaField (extract_json_from_readme env mdl owner repo rrl today)
        "repository_name" = ms0.lookup "repository_name")) ∧
    ((pyTruthy owner = true → pyTruthy repo = true →
      needsFill ms0 "repository_link" = true →
      metaField (extract_json_from_readme env mdl owner repo rrl today)
        "repository_link" = some (PJson.str ("https://github.com/" ++
          owner.getD "" ++ "/" ++ repo.getD ""))) ∧
     ((pyTruthy owner && pyTruthy repo &&
        needsFill ms0 "repository_link") = false →
      metaField (extract_json_from_readme env mdl owner repo rrl today)
        "repository_link" = ms0.lookup "repository_link")) ∧
    ((pyTruthy rrl = true → needsFill ms0 "readme_raw_link" = true →
      metaField (extract_json_from_readme env mdl owner repo rrl today)
        "readme_raw_link" = some (PJson.str (rrl.getD ""))) ∧
     ((pyTruthy rrl && needsFill ms0 "readme_raw_link") = false →
      metaField (extract_json_from_readme env mdl owner repo rrl today)
        "readme_raw_link" = ms0.lookup "readme_raw_link")) := by
  have hk := extract_metaField_eq env mdl owner repo rrl today prompt
    chunks fields ms0 hp hm hc hnb hpj hfne hms
  refine ⟨⟨?_, ?_⟩, ⟨?_, ?_⟩, ⟨?_, ?_⟩, ⟨?_, ?_⟩, ⟨?_, ?_⟩⟩
  · rw [hk]
    exact fillMetadata_evaluator _ _ _ _ _ _ hm
  · rw [hk]
    exact fillMetadata_date _ _ _ _ _ _
  · intro ho hnf
    rw [hk]
    exact fillMetadata_owner_fill _ _ _ _ _ _ ho hnf
  · intro hcond
    rw [hk]
    exact fillMetadata_owner_keep _ _ _ _ _ _ hcond
  · intro hr hnf
    rw [hk]
    exact fillMetadata_name_fill _ _ _ _ _ _ hr hnf
  · intro hcond
    rw [hk]
    exact fillMetadata_name_keep _ _ _ _ _ _ hcond
  · intro ho hr hnf
    rw [hk]
    exact fillMetadata_link_fill _ _ _ _ _ _ ho hr hnf
  · intro hcond
    rw [hk]
    exact fillMetadata_link_keep _ _ _ _ _ _ hcond
  · intro hrl hnf
    rw [hk]
    exact fillMetadata_rawlink_fill _ _ _ _ _ _ hrl hnf
  · intro hcond
    rw [hk]
    exact fillMetadata_rawlink_keep _ _ _ _ _ _ hcond

/-- C9 witness: the amended theorem applied to a concrete environment
whose model output parses to an object with an empty metadata dict —
evaluator, evaluation_date and repository_owner all come from the
caller. -/
theorem extract_metadata_provenance_witness :
    pyTruthy (some "m") = true ∧
    metaField (extract_json_from_readme
        ⟨Except.ok "P", false, Except.ok ["x"],
         fun _ => some (PJson.obj [("metadata", PJson.obj [])]),
         fun _ => none⟩
        (some "m") (some "alice") (some "r") (some "L") "2026-10-12")
      "evaluator" = some (PJson.str "m") ∧
    metaField (extract_json_from_readme
        ⟨Except.ok "P", false, Except.ok ["x"],
         fun _ => some (PJson.obj [("metadata", PJson.obj [])]),
         fun _ => none⟩
        (some "m") (some "alice") (some "r") (some "L") "2026-10-12")
      "evaluation_date" = some (PJson.str "2026-10-12") ∧
    metaField (extract_json_from_readme
        ⟨Except.ok "P", false, Except.ok ["x"],
         fun _ => some (PJson.obj [("metadata", PJson.obj [])]),
         fun _ => none⟩
        (some "m") (some "alice") (some "r") (some "L") "2026-10-12")
      "repository_owner" = some (PJson.str "alice") := by
  have h := extract_metadata_provenance
    ⟨Except.ok "P", false, Except.ok ["x"],
     fun _ => some (PJson.obj [("metadata", PJson.obj [])]),
     fun _ => none⟩
    (some "m") (some "alice") (some "r") (some "L") "2026-10-12"
    "P" ["x"] [("metadata", PJson.obj [])] []
    rfl rfl rfl rfl rfl rfl rfl
  exact ⟨rfl, h.1.1, h.1.2, h.2.1.1 rfl rfl⟩

/-- C10: the returned success flag is false exactly when an exception in
the prompt-building phase reaches the top-level handler; with a model
given, an empty model response, a JSON parse failure and a
schema-validation failure all still return success = true, recording the
failure only in recovery_suggestions, parsed = None, or
validation_ok/validation_errors. -/
theorem extract_success_only_on_unexpected (env : ExtractEnv)
    (mdl owner repo rrl : Option String) (today : String) :
    ((extract_json_from_readme env mdl owner repo rrl today).success =
        false ↔ ∃ e, env.promptPhase = Except.error e) ∧
    (∀ prompt chunks, env.promptPhase = Except.ok prompt →
      pyTruthy mdl = true → env.modelCall = Except.ok chunks →
      ((((String.join chunks).data.all Char.isWhitespace) = true →
        (extract_json_from_readme env mdl owner repo rrl today).success =
          true ∧
        (extract_json_from_readme env mdl owner repo rrl today).parsed =
          none ∧
        (extract_json_from_readme env mdl owner repo rrl
          today).recovery_suggestions ≠ []) ∧
      (((String.join chunks).data.all Char.isWhitespace) = false →
        env.parseJson (cleanRaw (String.join chunks)) = none →
        (extract_json_from_readme env mdl owner repo rrl today).success =
          true ∧
        (extract_json_from_readme env mdl owner repo rrl today).parsed =
          none ∧
        (extract_json_from_readme env mdl owner repo rrl
          today).recovery_suggestions ≠ []) ∧
      (∀ p p2 msg,
        ((String.join chunks).data.all Char.isWhitespace) = false →
        env.parseJson (cleanRaw (String.join chunks)) = some p →
        applyMetadata owner repo rrl mdl today p = Except.ok p2 →
        env.schemaObjPresent = true → env.validate p2 = some msg →
        (extract_json_from_readme env mdl owner repo rrl today).success =
          true ∧
        (extract_json_from_readme env mdl owner repo rrl
          today).validation_ok = some false ∧
        (extract_json_from_readme env mdl owner repo rrl
          today).validation_errors = some msg))) := by
  constructor
  · cases hp : env.promptPhase with
    | error e =>
        constructor
        · intro _
          exact ⟨e, rfl⟩
        · intro _
          unfold extract_json_from_readme
          rw [hp]
    | ok p =>
        constructor
        · intro hfalse
          rw [extract_success_of_ok env mdl owner repo rrl today p hp]
            at hfalse
          exact absurd hfalse (by decide)
        · rintro ⟨e, he⟩
          exact Except.noConfusion he
  · intro prompt chunks hp hm hc
    refine ⟨?_, ?_, ?_⟩
    · intro hb
      unfold extract_json_from_readme
      rw [hp]
      simp only [hm, if_true]
      unfold modelSection
      rw [hc]
      dsimp only
      simp only [hb, if_true]
      refine ⟨?_, ?_, ?_⟩ <;> simp
    · intro hb hpf
      unfold extract_json_from_readme
      rw [hp]
      simp only [hm, if_true]
      unfold modelSection
      rw [hc]
      dsimp only
      simp only [hb, Bool.false_eq_true, if_false]
      unfold parsedSection
      rw [hpf]
      refine ⟨?_, ?_, ?_⟩ <;> simp
    · intro p p2 msg hb hps hap hs hv
      unfold extract_json_from_readme
      rw [hp]
      simp only [hm, if_true]
      unfold modelSection
      rw [hc]
      dsimp only
      simp only [hb, Bool.false_eq_true, if_false]
      unfold parsedSection
      rw [hps]
      dsimp only
      rw [hap]
      dsimp only
      unfold validateSection
      simp only [hs, if_true]
      rw [hv]
      refine ⟨?_, ?_, ?_⟩ <;> simp

/-- C10 witness: the theorem applied to a concrete environment — the
success flag is true on an empty model response, and false exactly when
the prompt phase raised. -/
theorem extract_success_only_on_unexpected_witness :
    ((⟨Except.ok "P", false, Except.ok [""],
        fun _ => none, fun _ => none⟩ :
        ExtractEnv).promptPhase = Except.ok "P") ∧
    ((extract_json_from_readme
        ⟨Except.ok "P", false, Except.ok [""],
         fun _ => none, fun _ => none⟩
        (some "m") none none none "d").success = true ∧
      (extract_json_from_readme
        ⟨Except.ok "P", false, Except.ok [""],
         fun _ => none, fun _ => none⟩
        (some "m") none none none "d").parsed = none ∧
      (extract_json_from_readme
        ⟨Except.ok "P", false, Except.ok [""],
         fun _ => none, fun _ => none⟩
        (some "m") none none none "d").recovery_suggestions ≠ []) ∧
    ((extract_json_from_readme
        ⟨Except.error "boom", false, Except.ok [""],
         fun _ => none, fun _ => none⟩
        (some "m") none none none "d").success = false ↔
      ∃ e, (⟨Except.error "boom", false, Except.ok [""],
         fun _ => none, fun _ => none⟩ :
         ExtractEnv).promptPhase = Except.error e) :=
  ⟨rfl,
   ((extract_success_only_on_unexpected
      ⟨Except.ok "P", false, Except.ok [""],
       fun _ => none, fun _ => none⟩
      (some "m") none none none "d").2 "P" [""] rfl rfl rfl).1 rfl,
   (extract_success_only_on_unexpected
      ⟨Except.error "boom", false, Except.ok [""],
       fun _ => none, fun _ => none⟩
      (some "m") none none none "d").1⟩

end ReadmeEval
